import Mathlib

/-!
Shallow embedding of the `wfp` module of Rust-WFP (src/src/wfp.rs): a Windows
Filtering Platform management engine with transactional filter CRUD, an
ownership gate keyed on a fixed provider/sublayer identity, paged catalog
enumeration, and snapshot assembly.

The platform engine (the Fwpm* API) is modelled as an explicit state machine:
`EngineState` holds the committed rule store, an optional in-transaction view
(mutations inside a transaction act on the view; commit publishes it, abort
discards it), and a trace of transaction events.  Each Fwpm call of the source
becomes a Lean function on `EngineState`; statuses that in reality come from
the kernel (enumeration page statuses, commit/abort statuses) are passed as
explicit parameters where a claim needs them to vary.
-/

/-- A 128-bit platform identifier (the GUID of the windows crate), modelled
structurally by its four data fields. -/
structure Guid where
  data1 : Nat
  data2 : Nat
  data3 : Nat
  data4 : List Nat
deriving DecidableEq, Repr

/-- The fixed provider key of src/src/wfp.rs lines 15-20. -/
def PROVIDER_KEY : Guid :=
  ⟨0xd9f1c5f7, 0x13be, 0x4f2b, [0xb5, 0x01, 0xe4, 0xf0, 0x7b, 0xdb, 0x6d, 0x93]⟩

/-- The fixed sublayer key of src/src/wfp.rs lines 21-26. -/
def SUBLAYER_KEY : Guid :=
  ⟨0x5d2b9e18, 0xea68, 0x4a38, [0x93, 0xc7, 0x83, 0xf3, 0xf1, 0x4f, 0x0a, 0x01]⟩

def PROVIDER_NAME : String := "SLS WFP Manager Provider"

def SUBLAYER_NAME : String := "SLS WFP Manager SubLayer"

/-- Platform layer key FWPM_LAYER_ALE_AUTH_CONNECT_V4 (value as defined by the
platform SDK; only its identity matters to the embedding). -/
def FWPM_LAYER_ALE_AUTH_CONNECT_V4 : Guid :=
  ⟨0xc38d57d1, 0x05a7, 0x4c33, [0x90, 0x4f, 0x7f, 0xbc, 0xee, 0xe6, 0x0e, 0x82]⟩

/-- Platform condition key FWPM_CONDITION_IP_PROTOCOL. -/
def FWPM_CONDITION_IP_PROTOCOL : Guid :=
  ⟨0x3971ef2b, 0x623e, 0x4f9a, [0x8c, 0xb1, 0x6e, 0x79, 0xb8, 0x06, 0xb9, 0xa7]⟩

/-- Platform condition key FWPM_CONDITION_IP_REMOTE_PORT. -/
def FWPM_CONDITION_IP_REMOTE_PORT : Guid :=
  ⟨0xc35a604d, 0xd22b, 0x482e, [0x98, 0x09, 0x3a, 0x97, 0x15, 0xe7, 0xa3, 0x5f]⟩

def FWP_ACTION_FLAG_TERMINATING : Nat := 0x1000

def FWP_ACTION_BLOCK : Nat := 0x1001

def FWP_ACTION_PERMIT : Nat := 0x1002

def FWP_ACTION_CALLOUT_TERMINATING : Nat := 0x1003

def FWP_MATCH_EQUAL : Nat := 0

/-- Platform status FWP_E_ALREADY_EXISTS, the one status ignored during
identity registration (src/src/wfp.rs lines 355 and 371). -/
def FWP_E_ALREADY_EXISTS : Nat := 0x80320009

/-- Platform status FWP_E_FILTER_NOT_FOUND. -/
def FWP_E_FILTER_NOT_FOUND : Nat := 0x80320003

/-- Platform status FWP_E_PROVIDER_NOT_FOUND. -/
def FWP_E_PROVIDER_NOT_FOUND : Nat := 0x80320005

/-- Platform status FWP_E_SUBLAYER_NOT_FOUND. -/
def FWP_E_SUBLAYER_NOT_FOUND : Nat := 0x80320007

/-- Platform status FWP_E_TXN_IN_PROGRESS: a transaction is already open. -/
def FWP_E_TXN_IN_PROGRESS : Nat := 0x80320012

/-- Platform status FWP_E_NO_TXN_IN_PROGRESS: no transaction is open. -/
def FWP_E_NO_TXN_IN_PROGRESS : Nat := 0x80320013

/-- WfpAction of src/src/wfp.rs lines 30-35. -/
inductive WfpAction where
  | Permit : WfpAction
  | Block : WfpAction
  | Callout : WfpAction
deriving DecidableEq, Repr

/-- WfpAction::to_fwpm (src/src/wfp.rs lines 38-44). -/
def WfpAction.toFwpm : WfpAction → Nat
  | WfpAction.Permit => FWP_ACTION_PERMIT
  | WfpAction.Block => FWP_ACTION_BLOCK
  | WfpAction.Callout => FWP_ACTION_CALLOUT_TERMINATING

/-- WfpAction::as_str (src/src/wfp.rs lines 46-52). -/
def WfpAction.asStr : WfpAction → String
  | WfpAction.Permit => "Permit"
  | WfpAction.Block => "Block"
  | WfpAction.Callout => "Callout"

/-- The tagged payload of an FWP_CONDITION_VALUE0 (type tag plus union). -/
inductive CondValue where
  | uint8 : Nat → CondValue
  | uint16 : Nat → CondValue
deriving DecidableEq, Repr

/-- FWPM_FILTER_CONDITION0: field key, match type, tagged value. -/
structure FilterCondition where
  fieldKey : Guid
  matchType : Nat
  conditionValue : CondValue
deriving DecidableEq, Repr

/-- The fields of FWPM_FILTER0 that the source reads or writes.  A null
displayData.name pointer is `none`; a null providerKey pointer is `none`. -/
structure FwpmFilter where
  filterId : Nat
  displayName : Option String
  layerKey : Guid
  subLayerKey : Guid
  providerKey : Option Guid
  weight : Nat
  flags : Nat
  conditions : List FilterCondition
  actionType : Nat
  rawContext : Nat
  providerData : Option (List Nat)
  effectiveWeight : Nat
deriving DecidableEq, Repr

/-- A registered provider (FWPM_PROVIDER0 restricted to the fields used). -/
structure ProviderRec where
  key : Guid
  name : String
deriving DecidableEq, Repr

/-- A registered sublayer (FWPM_SUBLAYER0 restricted to the fields used). -/
structure SubLayerRec where
  key : Guid
  name : String
  providerKey : Guid
  weight : Nat
deriving DecidableEq, Repr

/-- One consistent view of the mutable engine store. -/
structure EngineView where
  filters : List FwpmFilter
  providers : List ProviderRec
  sublayers : List SubLayerRec
  nextFilterId : Nat
deriving DecidableEq, Repr

/-- Transaction events recorded by the model, used to state atomicity. -/
inductive TxEvent where
  | txBegin : TxEvent
  | txCommit : TxEvent
  | txAbort : TxEvent
deriving DecidableEq, Repr

/-- The platform engine as seen through one session: the committed store, the
open transaction view if any, and the trace of transaction events. -/
structure EngineState where
  committed : EngineView
  txn : Option EngineView
  trace : List TxEvent
deriving DecidableEq, Repr

/-- The store a read or write acts on: the transaction view while a
transaction is open, the committed store otherwise. -/
def currentView (s : EngineState) : EngineView :=
  s.txn.getD s.committed

/-- Write back a modified view to wherever reads currently resolve. -/
def setView (s : EngineState) (v : EngineView) : EngineState :=
  match s.txn with
  | some _ => { s with txn := some v }
  | none => { s with committed := v }

/-- Errors of the wfp module; each constructor corresponds to one distinct
anyhow error message of the source, carrying the same data the message
interpolates (raw status code or filter id). -/
inductive WfpError where
  | engineOpenFailed : Nat → WfpError
  | providerAddFailed : Nat → WfpError
  | sublayerAddFailed : Nat → WfpError
  | beginFailed : Nat → WfpError
  | commitFailed : Nat → WfpError
  | getByIdFailed : Nat → WfpError
  | nullFilter : Nat → WfpError
  | notOwned : Nat → WfpError
  | updateFailed : Nat → WfpError
  | deleteFailed : Nat → WfpError
  | addFailed : Nat → WfpError
  | portZero : WfpError
  | enumCreateFailed : Nat → WfpError
  | enumFailed : Nat → WfpError
  | strConvFailed : WfpError
deriving DecidableEq, Repr

/-- U16CString::from_str: fails on an interior NUL character, otherwise the
string converts losslessly. -/
def u16cstringFromStr (s : String) : Option String :=
  if s.toList.contains (Char.ofNat 0) then none else some s

/-- FwpmTransactionBegin0 on the model engine: fails while a transaction is
already in progress, otherwise opens a view copying the committed store. -/
def fwpmTransactionBegin (s : EngineState) : Nat × EngineState :=
  match s.txn with
  | some _ => (FWP_E_TXN_IN_PROGRESS, s)
  | none =>
      (0, { s with txn := some s.committed, trace := s.trace ++ [TxEvent.txBegin] })

/-- FwpmTransactionCommit0 on the model engine: publishes the transaction
view as the committed store. -/
def fwpmTransactionCommit (s : EngineState) : Nat × EngineState :=
  match s.txn with
  | some v =>
      (0, { committed := v, txn := none, trace := s.trace ++ [TxEvent.txCommit] })
  | none => (FWP_E_NO_TXN_IN_PROGRESS, s)

/-- FwpmTransactionAbort0 on the model engine: discards the transaction
view, leaving the committed store untouched. -/
def fwpmTransactionAbort (s : EngineState) : Nat × EngineState :=
  match s.txn with
  | some _ => (0, { s with txn := none, trace := s.trace ++ [TxEvent.txAbort] })
  | none => (FWP_E_NO_TXN_IN_PROGRESS, s)

/-- begin_transaction (src/src/wfp.rs lines 671-678). -/
def beginTransaction (s : EngineState) : Except WfpError Unit × EngineState :=
  let r := fwpmTransactionBegin s
  if r.1 ≠ 0 then (Except.error (WfpError.beginFailed r.1), r.2) else (Except.ok (), r.2)

/-- abort_transaction (src/src/wfp.rs lines 697-699): best effort, the abort
status is discarded. -/
def abortTransaction (s : EngineState) : EngineState :=
  (fwpmTransactionAbort s).2

/-- finish_transaction (src/src/wfp.rs lines 680-695) as a pure function of
the statuses the two platform calls would return: on Ok it commits (an error
status becomes a commit failure), on Err it aborts best-effort — the abort
status is discarded and the original error is returned unchanged. -/
def finishTransaction {α : Type} (commitStatus abortStatus : Nat)
    (result : Except WfpError α) : Except WfpError α :=
  match result with
  | Except.ok v =>
      if commitStatus ≠ 0 then Except.error (WfpError.commitFailed commitStatus)
      else Except.ok v
  | Except.error e =>
      let _ := abortStatus
      Except.error e

/-- finish_transaction acting on the model engine state. -/
def finishTransactionS {α : Type} (s : EngineState) (result : Except WfpError α) :
    Except WfpError α × EngineState :=
  match result with
  | Except.ok v =>
      let r := fwpmTransactionCommit s
      if r.1 ≠ 0 then (Except.error (WfpError.commitFailed r.1), r.2)
      else (Except.ok v, r.2)
  | Except.error e => (Except.error e, abortTransaction s)

/-- FwpmProviderAdd0 on the model engine: registering an already-present
provider key reports FWP_E_ALREADY_EXISTS, otherwise the provider is
appended. -/
def fwpmProviderAdd (s : EngineState) (p : ProviderRec) : Nat × EngineState :=
  let v := currentView s
  if v.providers.any (fun q => q.key = p.key) then (FWP_E_ALREADY_EXISTS, s)
  else (0, setView s { v with providers := v.providers ++ [p] })

/-- FwpmSubLayerAdd0 on the model engine, mirroring fwpmProviderAdd. -/
def fwpmSubLayerAdd (s : EngineState) (sl : SubLayerRec) : Nat × EngineState :=
  let v := currentView s
  if v.sublayers.any (fun q => q.key = sl.key) then (FWP_E_ALREADY_EXISTS, s)
  else (0, setView s { v with sublayers := v.sublayers ++ [sl] })

/-- Modelled from the spec: FwpmFilterGetById0 is not part of src/; section
4.3 of the spec gives its contract as "fetches a single rule or fails with
NotFound", so a missing id yields the not-found status with no rule, and an
existing id yields the rule with status 0. -/
def fwpmFilterGetById (s : EngineState) (id : Nat) : Nat × Option FwpmFilter :=
  match (currentView s).filters.find? (fun f => f.filterId = id) with
  | some f => (0, some f)
  | none => (FWP_E_FILTER_NOT_FOUND, none)

/-- FwpmFilterAdd0 on the model engine: the referenced provider and sublayer
must be registered; the engine assigns the next free identifier. -/
def fwpmFilterAdd (s : EngineState) (f : FwpmFilter) : Nat × Nat × EngineState :=
  let v := currentView s
  let providerMissing :=
    match f.providerKey with
    | some k => !(v.providers.any (fun q => q.key = k))
    | none => false
  if providerMissing then (FWP_E_PROVIDER_NOT_FOUND, 0, s)
  else if !(v.sublayers.any (fun q => q.key = f.subLayerKey)) then
    (FWP_E_SUBLAYER_NOT_FOUND, 0, s)
  else
    let id := v.nextFilterId
    (0, id,
      setView s
        { v with
          filters := v.filters ++ [{ f with filterId := id }],
          nextFilterId := id + 1 })

/-- FwpmFilterUpdate0 on the model engine: replaces the filter carrying the
given identifier (which the engine keeps) by the submitted definition. -/
def fwpmFilterUpdate (s : EngineState) (id : Nat) (f : FwpmFilter) :
    Nat × EngineState :=
  let v := currentView s
  if v.filters.any (fun g => g.filterId = id) then
    (0,
      setView s
        { v with
          filters :=
            v.filters.map (fun g =>
              if g.filterId = id then { f with filterId := id } else g) })
  else (FWP_E_FILTER_NOT_FOUND, s)

/-- FwpmFilterDeleteById0 on the model engine. -/
def fwpmFilterDeleteById (s : EngineState) (id : Nat) : Nat × EngineState :=
  let v := currentView s
  if v.filters.any (fun g => g.filterId = id) then
    (0, setView s { v with filters := v.filters.filter (fun g => ¬ g.filterId = id) })
  else (FWP_E_FILTER_NOT_FOUND, s)

/-- The ownership predicate of src/src/wfp.rs lines 137-139 and 219-225: the
sublayer key matches, the provider pointer is non-null, and the provider key
matches.  Both key conditions are required. -/
def isOwnedFilter (f : FwpmFilter) : Bool :=
  f.subLayerKey = SUBLAYER_KEY &&
    match f.providerKey with
    | some k => k = PROVIDER_KEY
    | none => false

/-- ensure_provider_setup (src/src/wfp.rs lines 343-376): registers the fixed
provider and sublayer; an already-exists status from either add is ignored,
any other non-zero status is an error. -/
def ensureProviderSetup (s : EngineState) : Except WfpError Unit × EngineState :=
  match u16cstringFromStr PROVIDER_NAME with
  | none => (Except.error WfpError.strConvFailed, s)
  | some pname =>
    let r1 := fwpmProviderAdd s { key := PROVIDER_KEY, name := pname }
    if r1.1 ≠ 0 ∧ r1.1 ≠ FWP_E_ALREADY_EXISTS then
      (Except.error (WfpError.providerAddFailed r1.1), r1.2)
    else
      match u16cstringFromStr SUBLAYER_NAME with
      | none => (Except.error WfpError.strConvFailed, r1.2)
      | some slname =>
        let r2 := fwpmSubLayerAdd r1.2
          { key := SUBLAYER_KEY, name := slname,
            providerKey := PROVIDER_KEY, weight := 0x7FFF }
        if r2.1 ≠ 0 ∧ r2.1 ≠ FWP_E_ALREADY_EXISTS then
          (Except.error (WfpError.sublayerAddFailed r2.1), r2.2)
        else (Except.ok (), r2.2)

/-- Engine::open (src/src/wfp.rs lines 57-75): opens the engine session (the
status of FwpmEngineOpen0 is the parameter) and immediately performs the
idempotent identity registration. -/
def openEngine (openStatus : Nat) (s : EngineState) :
    Except WfpError Unit × EngineState :=
  if openStatus ≠ 0 then (Except.error (WfpError.engineOpenFailed openStatus), s)
  else ensureProviderSetup s

/-- The protocol-equals-TCP condition built by the source (uint8 6). -/
def protoCond : FilterCondition :=
  { fieldKey := FWPM_CONDITION_IP_PROTOCOL, matchType := FWP_MATCH_EQUAL,
    conditionValue := CondValue.uint8 6 }

/-- The remote-port-equals condition built by the source (uint16 port). -/
def portCond (remotePort : Nat) : FilterCondition :=
  { fieldKey := FWPM_CONDITION_IP_REMOTE_PORT, matchType := FWP_MATCH_EQUAL,
    conditionValue := CondValue.uint16 remotePort }

/-- The FWPM_FILTER0 built by add_simple_tcp_filter_v4_inner
(src/src/wfp.rs lines 288-332): fixed layer, the tool sublayer and provider,
weight 10, two conditions, requested action; remaining fields default. -/
def mkSimpleTcpFilter (name : String) (remotePort : Nat) (action : WfpAction) :
    FwpmFilter :=
  { filterId := 0
    displayName := some name
    layerKey := FWPM_LAYER_ALE_AUTH_CONNECT_V4
    subLayerKey := SUBLAYER_KEY
    providerKey := some PROVIDER_KEY
    weight := 10
    flags := 0
    conditions := [protoCond, portCond remotePort]
    actionType := action.toFwpm
    rawContext := 0
    providerData := none
    effectiveWeight := 0 }

/-- add_simple_tcp_filter_v4_inner (src/src/wfp.rs lines 281-341). -/
def addSimpleTcpFilterV4Inner (s : EngineState) (name : String)
    (remotePort : Nat) (action : WfpAction) : Except WfpError Nat × EngineState :=
  match u16cstringFromStr name with
  | none => (Except.error WfpError.strConvFailed, s)
  | some wname =>
    let r := fwpmFilterAdd s (mkSimpleTcpFilter wname remotePort action)
    if r.1 ≠ 0 then (Except.error (WfpError.addFailed r.1), r.2.2)
    else (Except.ok r.2.1, r.2.2)

/-- add_simple_tcp_filter_v4 (src/src/wfp.rs lines 99-111): ensure identity,
begin, build-and-add, finish.  Note: no remote-port validation happens here. -/
def addSimpleTcpFilterV4 (s : EngineState) (name : String) (remotePort : Nat)
    (action : WfpAction) : Except WfpError Nat × EngineState :=
  match ensureProviderSetup s with
  | (Except.error e, s1) => (Except.error e, s1)
  | (Except.ok _, s1) =>
    match beginTransaction s1 with
    | (Except.error e, s2) => (Except.error e, s2)
    | (Except.ok _, s2) =>
      let r := addSimpleTcpFilterV4Inner s2 name remotePort action
      finishTransactionS r.2 r.1

/-- The updated FWPM_FILTER0 built by update_simple_tcp_filter_v4
(src/src/wfp.rs lines 174-191): display and conditions and action rebuilt
from the new arguments, layer, sublayer, weight, flags, rawContext,
providerData and effectiveWeight carried over from the fetched filter, and
the provider key re-associated explicitly. -/
def updatedFilterOf (f : FwpmFilter) (name : String) (remotePort : Nat)
    (action : WfpAction) : FwpmFilter :=
  { filterId := 0
    displayName := some name
    layerKey := f.layerKey
    subLayerKey := f.subLayerKey
    providerKey := some PROVIDER_KEY
    weight := f.weight
    flags := f.flags
    conditions := [protoCond, portCond remotePort]
    actionType := action.toFwpm
    rawContext := f.rawContext
    providerData := f.providerData
    effectiveWeight := f.effectiveWeight }

/-- update_simple_tcp_filter_v4 (src/src/wfp.rs lines 113-202): ensure
identity, begin, fetch by id, ownership gate, rebuild, submit, finish. -/
def updateSimpleTcpFilterV4 (s : EngineState) (id : Nat) (name : String)
    (remotePort : Nat) (action : WfpAction) : Except WfpError Unit × EngineState :=
  match ensureProviderSetup s with
  | (Except.error e, s1) => (Except.error e, s1)
  | (Except.ok _, s1) =>
    match beginTransaction s1 with
    | (Except.error e, s2) => (Except.error e, s2)
    | (Except.ok _, s2) =>
      let g := fwpmFilterGetById s2 id
      if g.1 ≠ 0 then (Except.error (WfpError.getByIdFailed g.1), abortTransaction s2)
      else
        match g.2 with
        | none => (Except.error (WfpError.nullFilter id), abortTransaction s2)
        | some f =>
          if ¬ isOwnedFilter f then
            (Except.error (WfpError.notOwned id), abortTransaction s2)
          else
            match u16cstringFromStr name with
            | none => (Except.error WfpError.strConvFailed, s2)
            | some wname =>
              let r := fwpmFilterUpdate s2 id (updatedFilterOf f wname remotePort action)
              if r.1 ≠ 0 then
                (Except.error (WfpError.updateFailed r.1), abortTransaction r.2)
              else finishTransactionS r.2 (Except.ok ())

/-- delete_filter_by_id (src/src/wfp.rs lines 204-242): begin, fetch by id,
ownership gate (a missing rule counts as not owned), delete, finish. -/
def deleteFilterById (s : EngineState) (id : Nat) :
    Except WfpError Unit × EngineState :=
  match beginTransaction s with
  | (Except.error e, s1) => (Except.error e, s1)
  | (Except.ok _, s1) =>
    let g := fwpmFilterGetById s1 id
    if g.1 ≠ 0 then (Except.error (WfpError.getByIdFailed g.1), abortTransaction s1)
    else
      let owned := (g.2.map isOwnedFilter).getD false
      if ¬ owned then (Except.error (WfpError.notOwned id), abortTransaction s1)
      else
        let r := fwpmFilterDeleteById s1 id
        if r.1 ≠ 0 then (Except.error (WfpError.deleteFailed r.1), abortTransaction r.2)
        else finishTransactionS r.2 (Except.ok ())

/-- FilterConfig (src/src/wfp.rs lines 646-651). -/
structure FilterConfig where
  name : String
  remote_port : Nat
  action : WfpAction
deriving DecidableEq, Repr

/-- The per-config loop body of import_filters (src/src/wfp.rs lines
265-276), followed by the final finish: a zero port aborts with the port
error, an inner failure aborts with the inner error, success commits. -/
def importLoop (s : EngineState) : List FilterConfig → Except WfpError Unit × EngineState
  | [] => finishTransactionS s (Except.ok ())
  | cfg :: rest =>
    if cfg.remote_port = 0 then (Except.error WfpError.portZero, abortTransaction s)
    else
      match addSimpleTcpFilterV4Inner s cfg.name cfg.remote_port cfg.action with
      | (Except.error e, s1) => (Except.error e, abortTransaction s1)
      | (Except.ok _, s1) => importLoop s1 rest

/-- import_filters (src/src/wfp.rs lines 261-279): ensure identity, one
shared transaction around the whole batch of configs. -/
def importFilters (s : EngineState) (configs : List FilterConfig) :
    Except WfpError Unit × EngineState :=
  match ensureProviderSetup s with
  | (Except.error e, s1) => (Except.error e, s1)
  | (Except.ok _, s1) =>
    match beginTransaction s1 with
    | (Except.error e, s2) => (Except.error e, s2)
    | (Except.ok _, s2) => importLoop s2 configs

/-- The filters a successful import appends, with the identifiers the model
engine assigns starting from the given one. -/
def importedFilters (startId : Nat) : List FilterConfig → List FwpmFilter
  | [] => []
  | cfg :: rest =>
    { mkSimpleTcpFilter cfg.name cfg.remote_port cfg.action with filterId := startId }
      :: importedFilters (startId + 1) rest

/-- The textual fallback used for an unresolved layer or sublayer key: the
Debug rendering of the GUID value (format "{:#?}" in the source), a textual
form determined by the identifier itself. -/
def guidText (g : Guid) : String :=
  "GUID(" ++ toString g.data1 ++ ", " ++ toString g.data2 ++ ", " ++
    toString g.data3 ++ ", " ++ toString g.data4 ++ ")"

/-- Lookup in one of the identifier-to-name maps built by snapshot. -/
def lookupGuid (m : List (Guid × String)) (k : Guid) : Option String :=
  (m.find? (fun p => p.1 = k)).map (fun p => p.2)

/-- The action decode of list_filters (src/src/wfp.rs lines 439-443): the
permit constant maps to Permit, the block constant to Block, and every other
action type falls through to Callout. -/
def decodeAction (t : Nat) : WfpAction :=
  if t = FWP_ACTION_PERMIT then WfpAction.Permit
  else if t = FWP_ACTION_BLOCK then WfpAction.Block
  else WfpAction.Callout

/-- The remote-port extraction loop of list_filters (src/src/wfp.rs lines
449-456): the last condition keyed on the remote port with a uint16 value
wins; other conditions leave the accumulator alone. -/
def condRemotePort (c : FilterCondition) : Option Nat :=
  match c.conditionValue with
  | CondValue.uint16 v =>
      if c.fieldKey = FWPM_CONDITION_IP_REMOTE_PORT then some v else none
  | _ => none

/-- FilterSummary (src/src/wfp.rs lines 617-630). -/
structure FilterSummary where
  id : Nat
  name : String
  layer : String
  layer_key : Guid
  sublayer : String
  sublayer_key : Guid
  provider : String
  provider_key : Option Guid
  action : WfpAction
  remote_port : Option Nat
  owned_by_app : Bool
deriving DecidableEq, Repr

/-- The per-entry body of list_filters (src/src/wfp.rs lines 412-473): name
extraction with placeholder, layer and sublayer resolution with the raw
textual fallback, provider resolution with the fixed placeholder, total
action decode, remote-port extraction, ownership flag. -/
def summaryOfFilter (layerMap sublayerMap providerMap : List (Guid × String))
    (f : FwpmFilter) : FilterSummary :=
  { id := f.filterId
    name := f.displayName.getD "<no name>"
    layer := (lookupGuid layerMap f.layerKey).getD (guidText f.layerKey)
    layer_key := f.layerKey
    sublayer := (lookupGuid sublayerMap f.subLayerKey).getD (guidText f.subLayerKey)
    sublayer_key := f.subLayerKey
    provider := (f.providerKey.bind (lookupGuid providerMap)).getD "<unknown provider>"
    provider_key := f.providerKey
    action := decodeAction f.actionType
    remote_port :=
      f.conditions.foldl (fun acc c =>
        match condRemotePort c with
        | some v => some v
        | none => acc) none
    owned_by_app := isOwnedFilter f }

/-- The paged enumeration loop shared by list_filters, enumerate_layers,
enumerate_providers and enumerate_sublayers (src/src/wfp.rs lines 394-477,
493-517, 534-559, 576-601): each Fwpm*Enum0 call takes a page of at most 128
entries; a zero-entry page ends the loop; any non-zero status destroys the
enumeration handle and fails.  The status of the i-th page request is
supplied by `pageStatuses`; the returned Bool records whether the
enumeration handle was destroyed. -/
def enumPagesGo {α : Type} (pageStatuses : Nat → Nat) (idx : Nat)
    (remaining : List α) (acc : List α) : (Except Nat (List α)) × Bool :=
  let st := pageStatuses idx
  if st ≠ 0 then (Except.error st, true)
  else
    let page := remaining.take 128
    if h : page.isEmpty then (Except.ok acc, true)
    else
      enumPagesGo pageStatuses (idx + 1) (remaining.drop 128) (acc ++ page)
termination_by remaining.length
decreasing_by
  simp only [List.length_drop]
  have hr : remaining ≠ [] := by
    intro he
    exact h (by simp [page, he])
  have : 0 < remaining.length := List.length_pos.mpr hr
  omega

/-- The whole paged enumeration of one catalog, page indices from 0. -/
def enumPages {α : Type} (pageStatuses : Nat → Nat) (catalog : List α) :
    (Except Nat (List α)) × Bool :=
  enumPagesGo pageStatuses 0 catalog []

/-- list_filters (src/src/wfp.rs lines 378-482) over the model engine: the
filter catalog is paged out of the current view and each entry is turned
into a FilterSummary against the three name maps.  `createStatus` is the
status of FwpmFilterCreateEnumHandle0. -/
def listFilters (s : EngineState) (layerMap sublayerMap providerMap : List (Guid × String))
    (createStatus : Nat) (pageStatuses : Nat → Nat) :
    Except WfpError (List FilterSummary) :=
  if createStatus ≠ 0 then Except.error (WfpError.enumCreateFailed createStatus)
  else
    match (enumPages pageStatuses (currentView s).filters).1 with
    | Except.error st => Except.error (WfpError.enumFailed st)
    | Except.ok fs => Except.ok (fs.map (summaryOfFilter layerMap sublayerMap providerMap))

/-- FWPM_DISPLAY_DATA0: null pointers are `none`. -/
structure DisplayData where
  name : Option String
  description : Option String
deriving DecidableEq, Repr

/-- display_name (src/src/wfp.rs lines 653-660). -/
def displayNameOf (d : DisplayData) : String :=
  d.name.getD "<unnamed>"

/-- display_description (src/src/wfp.rs lines 662-669). -/
def displayDescriptionOf (d : DisplayData) : Option String :=
  d.description

/-- NamedGuid (src/src/wfp.rs lines 632-637). -/
structure NamedGuid where
  key : Guid
  name : String
  description : Option String
deriving DecidableEq, Repr

/-- FWPM_LAYER0 restricted to the fields read by enumerate_layers. -/
structure LayerRec where
  layerKey : Guid
  displayData : DisplayData
deriving DecidableEq, Repr

/-- enumerate_layers (src/src/wfp.rs lines 484-521): the platform layer
catalog is paged and each entry becomes a NamedGuid. -/
def enumerateLayers (layerCatalog : List LayerRec) (createStatus : Nat)
    (pageStatuses : Nat → Nat) : Except WfpError (List NamedGuid) :=
  if createStatus ≠ 0 then Except.error (WfpError.enumCreateFailed createStatus)
  else
    match (enumPages pageStatuses layerCatalog).1 with
    | Except.error st => Except.error (WfpError.enumFailed st)
    | Except.ok ls =>
        Except.ok (ls.map (fun l =>
          { key := l.layerKey, name := displayNameOf l.displayData,
            description := displayDescriptionOf l.displayData }))

/-- The state ensure_provider_setup leaves behind: both identity adds applied
(each a no-op when the key is already registered). -/
def afterEnsure (s : EngineState) : EngineState :=
  (fwpmSubLayerAdd (fwpmProviderAdd s { key := PROVIDER_KEY, name := PROVIDER_NAME }).2
    { key := SUBLAYER_KEY, name := SUBLAYER_NAME,
      providerKey := PROVIDER_KEY, weight := 0x7FFF }).2

/-- An engine with nothing registered and no filters. -/
def emptyView : EngineView :=
  { filters := [], providers := [], sublayers := [], nextFilterId := 1 }

def emptyEngine : EngineState :=
  { committed := emptyView, txn := none, trace := [] }

/-- A rule created by some other application: foreign sublayer, no provider. -/
def alienFilter : FwpmFilter :=
  { filterId := 7, displayName := some "alien",
    layerKey := FWPM_LAYER_ALE_AUTH_CONNECT_V4,
    subLayerKey := ⟨1, 1, 1, [1]⟩, providerKey := none, weight := 3, flags := 2,
    conditions := [], actionType := FWP_ACTION_BLOCK, rawContext := 0,
    providerData := none, effectiveWeight := 5 }

def alienView : EngineView :=
  { filters := [alienFilter], providers := [], sublayers := [], nextFilterId := 8 }

def alienEngine : EngineState :=
  { committed := alienView, txn := none, trace := [] }

/-- A rule owned by this application, inside an engine where the identity is
already registered. -/
def ownedFilter : FwpmFilter :=
  { filterId := 4, displayName := some "mine",
    layerKey := FWPM_LAYER_ALE_AUTH_CONNECT_V4,
    subLayerKey := SUBLAYER_KEY, providerKey := some PROVIDER_KEY, weight := 10,
    flags := 0, conditions := [protoCond, portCond 445],
    actionType := FWP_ACTION_BLOCK, rawContext := 0, providerData := none,
    effectiveWeight := 9 }

def ownedView : EngineView :=
  { filters := [ownedFilter],
    providers := [{ key := PROVIDER_KEY, name := PROVIDER_NAME }],
    sublayers :=
      [{ key := SUBLAYER_KEY, name := SUBLAYER_NAME,
         providerKey := PROVIDER_KEY, weight := 0x7FFF }],
    nextFilterId := 5 }

def ownedEngine : EngineState :=
  { committed := ownedView, txn := none, trace := [] }

def gX : Guid := ⟨11, 12, 13, [14]⟩

def gY : Guid := ⟨21, 22, 23, [24]⟩

/-- Two filters whose provider keys resolve against no provider map entry. -/
def filterPX : FwpmFilter :=
  { filterId := 1, displayName := some "fx",
    layerKey := FWPM_LAYER_ALE_AUTH_CONNECT_V4, subLayerKey := SUBLAYER_KEY,
    providerKey := some gX, weight := 1, flags := 0, conditions := [],
    actionType := FWP_ACTION_PERMIT, rawContext := 0, providerData := none,
    effectiveWeight := 0 }

def filterPY : FwpmFilter :=
  { filterPX with filterId := 2, displayName := some "fy", providerKey := some gY }

def unresolvedView : EngineView :=
  { filters := [filterPX, filterPY], providers := [], sublayers := [],
    nextFilterId := 3 }

def unresolvedEngine : EngineState :=
  { committed := unresolvedView, txn := none, trace := [] }

/-! Helper lemmas about the model primitives. -/

theorem currentView_of_none {s : EngineState} (h : s.txn = none) :
    currentView s = s.committed := by
  simp [currentView, h]

theorem currentView_of_some {s : EngineState} {v : EngineView} (h : s.txn = some v) :
    currentView s = v := by
  simp [currentView, h]

theorem setView_of_none {s : EngineState} (h : s.txn = none) (v : EngineView) :
    setView s v = { s with committed := v } := by
  simp [setView, h]

theorem setView_of_some {s : EngineState} {w : EngineView} (h : s.txn = some w)
    (v : EngineView) : setView s v = { s with txn := some v } := by
  simp [setView, h]

theorem u16cstringFromStr_some {n w : String} (h : u16cstringFromStr n = some w) :
    w = n := by
  unfold u16cstringFromStr at h
  split at h
  · exact Option.noConfusion h
  · exact (Option.some.inj h).symm

theorem beginTransaction_of_none {s : EngineState} (h : s.txn = none) :
    beginTransaction s =
      (Except.ok (), { s with txn := some s.committed, trace := s.trace ++ [TxEvent.txBegin] }) := by
  simp [beginTransaction, fwpmTransactionBegin, h]

theorem abortTransaction_of_some {s : EngineState} {v : EngineView} (h : s.txn = some v) :
    abortTransaction s = { s with txn := none, trace := s.trace ++ [TxEvent.txAbort] } := by
  simp [abortTransaction, fwpmTransactionAbort, h]

theorem finishTransactionS_ok_of_some {α : Type} {s : EngineState} {v : EngineView}
    (h : s.txn = some v) (x : α) :
    finishTransactionS s (Except.ok x) =
      (Except.ok x, { committed := v, txn := none, trace := s.trace ++ [TxEvent.txCommit] }) := by
  simp [finishTransactionS, fwpmTransactionCommit, h]

theorem finishTransactionS_error {α : Type} (s : EngineState) (e : WfpError) :
    finishTransactionS s (Except.error e : Except WfpError α) =
      (Except.error e, abortTransaction s) := rfl

theorem ensureProviderSetup_eq (s : EngineState) :
    ensureProviderSetup s = (Except.ok (), afterEnsure s) := by
  have hp : u16cstringFromStr PROVIDER_NAME = some PROVIDER_NAME := by decide
  have hs : u16cstringFromStr SUBLAYER_NAME = some SUBLAYER_NAME := by decide
  unfold ensureProviderSetup afterEnsure
  rw [hp, hs]
  by_cases h1 : (currentView s).providers.any (fun q => q.key = PROVIDER_KEY)
  · simp only [fwpmProviderAdd, h1, if_true]
    by_cases h2 : (currentView s).sublayers.any (fun q => q.key = SUBLAYER_KEY)
    · simp [fwpmSubLayerAdd, h2, FWP_E_ALREADY_EXISTS]
    · simp [fwpmSubLayerAdd, h2]
  · simp only [fwpmProviderAdd, h1, if_false]
    by_cases h2 : (currentView (setView s
        { currentView s with
          providers := (currentView s).providers ++ [{ key := PROVIDER_KEY, name := PROVIDER_NAME }] })).sublayers.any
        (fun q => q.key = SUBLAYER_KEY)
    · simp [fwpmSubLayerAdd, h2, FWP_E_ALREADY_EXISTS]
    · simp [fwpmSubLayerAdd, h2]

theorem setView_trace (s : EngineState) (v : EngineView) :
    (setView s v).trace = s.trace := by
  unfold setView
  split <;> rfl

theorem setView_txn_of_none {s : EngineState} (h : s.txn = none) (v : EngineView) :
    (setView s v).txn = none := by
  simp [setView, h]

theorem currentView_setView (s : EngineState) (v : EngineView) :
    currentView (setView s v) = v := by
  unfold setView
  split
  · simp [currentView]
  · next h => simp [currentView, h]

theorem fwpmProviderAdd_trace (s : EngineState) (p : ProviderRec) :
    (fwpmProviderAdd s p).2.trace = s.trace := by
  by_cases h1 : ((currentView s).providers.any (fun q => q.key = p.key)) = true
  · simp [fwpmProviderAdd, h1]
  · simp [fwpmProviderAdd, h1, setView_trace]

theorem fwpmProviderAdd_txn_of_none {s : EngineState} (h : s.txn = none) (p : ProviderRec) :
    (fwpmProviderAdd s p).2.txn = none := by
  by_cases h1 : ((currentView s).providers.any (fun q => q.key = p.key)) = true
  · simp [fwpmProviderAdd, h1, h]
  · simp [fwpmProviderAdd, h1, setView_txn_of_none h]

theorem fwpmProviderAdd_filters (s : EngineState) (p : ProviderRec) :
    (currentView (fwpmProviderAdd s p).2).filters = (currentView s).filters := by
  by_cases h1 : ((currentView s).providers.any (fun q => q.key = p.key)) = true
  · simp [fwpmProviderAdd, h1]
  · simp [fwpmProviderAdd, h1, currentView_setView]

theorem fwpmProviderAdd_nextId (s : EngineState) (p : ProviderRec) :
    (currentView (fwpmProviderAdd s p).2).nextFilterId = (currentView s).nextFilterId := by
  by_cases h1 : ((currentView s).providers.any (fun q => q.key = p.key)) = true
  · simp [fwpmProviderAdd, h1]
  · simp [fwpmProviderAdd, h1, currentView_setView]

theorem fwpmProviderAdd_sublayers (s : EngineState) (p : ProviderRec) :
    (currentView (fwpmProviderAdd s p).2).sublayers = (currentView s).sublayers := by
  by_cases h1 : ((currentView s).providers.any (fun q => q.key = p.key)) = true
  · simp [fwpmProviderAdd, h1]
  · simp [fwpmProviderAdd, h1, currentView_setView]

theorem fwpmProviderAdd_registers (s : EngineState) (p : ProviderRec) :
    ((currentView (fwpmProviderAdd s p).2).providers.any (fun q => q.key = p.key)) = true := by
  by_cases h1 : ((currentView s).providers.any (fun q => q.key = p.key)) = true
  · simpa [fwpmProviderAdd, h1] using h1
  · simp [fwpmProviderAdd, h1, currentView_setView]

theorem fwpmSubLayerAdd_trace (s : EngineState) (sl : SubLayerRec) :
    (fwpmSubLayerAdd s sl).2.trace = s.trace := by
  by_cases h1 : ((currentView s).sublayers.any (fun q => q.key = sl.key)) = true
  · simp [fwpmSubLayerAdd, h1]
  · simp [fwpmSubLayerAdd, h1, setView_trace]

theorem fwpmSubLayerAdd_txn_of_none {s : EngineState} (h : s.txn = none) (sl : SubLayerRec) :
    (fwpmSubLayerAdd s sl).2.txn = none := by
  by_cases h1 : ((currentView s).sublayers.any (fun q => q.key = sl.key)) = true
  · simp [fwpmSubLayerAdd, h1, h]
  · simp [fwpmSubLayerAdd, h1, setView_txn_of_none h]

theorem fwpmSubLayerAdd_filters (s : EngineState) (sl : SubLayerRec) :
    (currentView (fwpmSubLayerAdd s sl).2).filters = (currentView s).filters := by
  by_cases h1 : ((currentView s).sublayers.any (fun q => q.key = sl.key)) = true
  · simp [fwpmSubLayerAdd, h1]
  · simp [fwpmSubLayerAdd, h1, currentView_setView]

theorem fwpmSubLayerAdd_nextId (s : EngineState) (sl : SubLayerRec) :
    (currentView (fwpmSubLayerAdd s sl).2).nextFilterId = (currentView s).nextFilterId := by
  by_cases h1 : ((currentView s).sublayers.any (fun q => q.key = sl.key)) = true
  · simp [fwpmSubLayerAdd, h1]
  · simp [fwpmSubLayerAdd, h1, currentView_setView]

theorem fwpmSubLayerAdd_providers (s : EngineState) (sl : SubLayerRec) :
    (currentView (fwpmSubLayerAdd s sl).2).providers = (currentView s).providers := by
  by_cases h1 : ((currentView s).sublayers.any (fun q => q.key = sl.key)) = true
  · simp [fwpmSubLayerAdd, h1]
  · simp [fwpmSubLayerAdd, h1, currentView_setView]

theorem fwpmSubLayerAdd_registers (s : EngineState) (sl : SubLayerRec) :
    ((currentView (fwpmSubLayerAdd s sl).2).sublayers.any (fun q => q.key = sl.key)) = true := by
  by_cases h1 : ((currentView s).sublayers.any (fun q => q.key = sl.key)) = true
  · simpa [fwpmSubLayerAdd, h1] using h1
  · simp [fwpmSubLayerAdd, h1, currentView_setView]

theorem afterEnsure_trace (s : EngineState) : (afterEnsure s).trace = s.trace := by
  unfold afterEnsure
  rw [fwpmSubLayerAdd_trace, fwpmProviderAdd_trace]

theorem afterEnsure_txn_of_none {s : EngineState} (h : s.txn = none) :
    (afterEnsure s).txn = none := by
  unfold afterEnsure
  exact fwpmSubLayerAdd_txn_of_none (fwpmProviderAdd_txn_of_none h _) _

theorem afterEnsure_filters (s : EngineState) :
    (currentView (afterEnsure s)).filters = (currentView s).filters := by
  unfold afterEnsure
  rw [fwpmSubLayerAdd_filters, fwpmProviderAdd_filters]

theorem afterEnsure_nextId (s : EngineState) :
    (currentView (afterEnsure s)).nextFilterId = (currentView s).nextFilterId := by
  unfold afterEnsure
  rw [fwpmSubLayerAdd_nextId, fwpmProviderAdd_nextId]

theorem afterEnsure_provRegistered (s : EngineState) :
    ((currentView (afterEnsure s)).providers.any (fun q => q.key = PROVIDER_KEY)) = true := by
  unfold afterEnsure
  rw [fwpmSubLayerAdd_providers]
  exact fwpmProviderAdd_registers s _

theorem afterEnsure_sublRegistered (s : EngineState) :
    ((currentView (afterEnsure s)).sublayers.any (fun q => q.key = SUBLAYER_KEY)) = true := by
  unfold afterEnsure
  exact fwpmSubLayerAdd_registers _ _

theorem afterEnsure_committed_filters {s : EngineState} (h : s.txn = none) :
    (afterEnsure s).committed.filters = s.committed.filters := by
  have h1 := afterEnsure_filters s
  rw [currentView_of_none (afterEnsure_txn_of_none h), currentView_of_none h] at h1
  exact h1

theorem afterEnsure_committed_nextId {s : EngineState} (h : s.txn = none) :
    (afterEnsure s).committed.nextFilterId = s.committed.nextFilterId := by
  have h1 := afterEnsure_nextId s
  rw [currentView_of_none (afterEnsure_txn_of_none h), currentView_of_none h] at h1
  exact h1

theorem setView_committed_of_some {s : EngineState} {w : EngineView}
    (h : s.txn = some w) (v : EngineView) : (setView s v).committed = s.committed := by
  simp [setView, h]

theorem setView_txn_of_some {s : EngineState} {w : EngineView}
    (h : s.txn = some w) (v : EngineView) : (setView s v).txn = some v := by
  simp [setView, h]

theorem fwpmFilterAdd_trace (s : EngineState) (f : FwpmFilter) :
    (fwpmFilterAdd s f).2.2.trace = s.trace := by
  by_cases hm : (match f.providerKey with
      | some k => !((currentView s).providers.any fun q => q.key = k)
      | none => false) = true
  · simp [fwpmFilterAdd, hm]
  · by_cases hsl : ((currentView s).sublayers.any fun q => q.key = f.subLayerKey) = true
    · simp [fwpmFilterAdd, hm, hsl, setView_trace]
    · simp [fwpmFilterAdd, hm, hsl]

theorem fwpmFilterAdd_committed_of_some {s : EngineState} {w : EngineView}
    (h : s.txn = some w) (f : FwpmFilter) :
    (fwpmFilterAdd s f).2.2.committed = s.committed := by
  by_cases hm : (match f.providerKey with
      | some k => !((currentView s).providers.any fun q => q.key = k)
      | none => false) = true
  · simp [fwpmFilterAdd, hm]
  · by_cases hsl : ((currentView s).sublayers.any fun q => q.key = f.subLayerKey) = true
    · simp [fwpmFilterAdd, hm, hsl, setView_committed_of_some h]
    · simp [fwpmFilterAdd, hm, hsl]

theorem setView_txn_isSome (s : EngineState) (v : EngineView) :
    (setView s v).txn.isSome = s.txn.isSome := by
  unfold setView
  split <;> simp_all

theorem fwpmFilterAdd_txn_isSome {s : EngineState} (h : s.txn.isSome = true)
    (f : FwpmFilter) : (fwpmFilterAdd s f).2.2.txn.isSome = true := by
  by_cases hm : (match f.providerKey with
      | some k => !((currentView s).providers.any fun q => q.key = k)
      | none => false) = true
  · simp [fwpmFilterAdd, hm, h]
  · by_cases hsl : ((currentView s).sublayers.any fun q => q.key = f.subLayerKey) = true
    · simp [fwpmFilterAdd, hm, hsl, setView_txn_isSome, h]
    · simp [fwpmFilterAdd, hm, hsl, h]

theorem abortTransaction_of_isSome {s : EngineState} (h : s.txn.isSome = true) :
    abortTransaction s = { s with txn := none, trace := s.trace ++ [TxEvent.txAbort] } := by
  cases hs : s.txn with
  | none => rw [hs] at h; simp at h
  | some v => exact abortTransaction_of_some hs

theorem addInner_state (s : EngineState) (name : String) (remotePort : Nat)
    (action : WfpAction) :
    (addSimpleTcpFilterV4Inner s name remotePort action).2 = s ∨
      (addSimpleTcpFilterV4Inner s name remotePort action).2 =
        (fwpmFilterAdd s (mkSimpleTcpFilter name remotePort action)).2.2 := by
  unfold addSimpleTcpFilterV4Inner
  cases hu : u16cstringFromStr name with
  | none => exact Or.inl rfl
  | some w =>
    have hw : w = name := u16cstringFromStr_some hu
    subst hw
    by_cases hst : (fwpmFilterAdd s (mkSimpleTcpFilter w remotePort action)).1 ≠ 0
    · simp [hst]
    · simp [hst]

theorem addInner_committed_of_some {s : EngineState} {v : EngineView}
    (h : s.txn = some v) (name : String) (remotePort : Nat) (action : WfpAction) :
    (addSimpleTcpFilterV4Inner s name remotePort action).2.committed = s.committed ∧
    (addSimpleTcpFilterV4Inner s name remotePort action).2.txn.isSome = true ∧
    (addSimpleTcpFilterV4Inner s name remotePort action).2.trace = s.trace := by
  have hsome : s.txn.isSome = true := by simp [h]
  rcases addInner_state s name remotePort action with hs | hs <;> rw [hs]
  · exact ⟨rfl, hsome, rfl⟩
  · exact ⟨fwpmFilterAdd_committed_of_some h _, fwpmFilterAdd_txn_isSome hsome _,
      fwpmFilterAdd_trace s _⟩

theorem addInner_of_registered {s : EngineState} {v : EngineView} (h : s.txn = some v)
    (hp : (v.providers.any (fun q => q.key = PROVIDER_KEY)) = true)
    (hsl : (v.sublayers.any (fun q => q.key = SUBLAYER_KEY)) = true)
    {name : String} (hn : u16cstringFromStr name = some name)
    (remotePort : Nat) (action : WfpAction) :
    addSimpleTcpFilterV4Inner s name remotePort action =
      (Except.ok v.nextFilterId,
        { s with txn := some { v with
            filters := v.filters ++
              [{ mkSimpleTcpFilter name remotePort action with filterId := v.nextFilterId }],
            nextFilterId := v.nextFilterId + 1 } }) := by
  have hadd : fwpmFilterAdd s (mkSimpleTcpFilter name remotePort action) =
      (0, v.nextFilterId,
        { s with txn := some { v with
            filters := v.filters ++
              [{ mkSimpleTcpFilter name remotePort action with filterId := v.nextFilterId }],
            nextFilterId := v.nextFilterId + 1 } }) := by
    have hpk : (mkSimpleTcpFilter name remotePort action).providerKey = some PROVIDER_KEY := rfl
    have hsk : (mkSimpleTcpFilter name remotePort action).subLayerKey = SUBLAYER_KEY := rfl
    simp only [fwpmFilterAdd, currentView_of_some h, hpk, hsk, hp, hsl,
      Bool.not_true, Bool.false_eq_true, if_false, setView_of_some h]
  unfold addSimpleTcpFilterV4Inner
  rw [hn]
  simp [hadd]

theorem fwpmFilterAdd_ok_shape {s : EngineState} {f : FwpmFilter}
    (h : (fwpmFilterAdd s f).1 = 0) :
    fwpmFilterAdd s f =
      (0, (currentView s).nextFilterId,
        setView s
          { currentView s with
            filters := (currentView s).filters ++
              [{ f with filterId := (currentView s).nextFilterId }],
            nextFilterId := (currentView s).nextFilterId + 1 }) := by
  by_cases hm : (match f.providerKey with
      | some k => !((currentView s).providers.any fun q => q.key = k)
      | none => false) = true
  · rw [show (fwpmFilterAdd s f).1 = FWP_E_PROVIDER_NOT_FOUND by simp [fwpmFilterAdd, hm]] at h
    exact absurd h (by decide)
  · by_cases hsl : ((currentView s).sublayers.any fun q => q.key = f.subLayerKey) = true
    · simp [fwpmFilterAdd, hm, hsl]
    · rw [show (fwpmFilterAdd s f).1 = FWP_E_SUBLAYER_NOT_FOUND by
        simp [fwpmFilterAdd, hm, hsl]] at h
      exact absurd h (by decide)

theorem addInner_ok_shape {s s1 : EngineState} {v : EngineView} {k : Nat}
    {name : String} {remotePort : Nat} {action : WfpAction}
    (h : s.txn = some v)
    (hr : addSimpleTcpFilterV4Inner s name remotePort action = (Except.ok k, s1)) :
    k = v.nextFilterId ∧
    s1 = { s with txn := some { v with
        filters := v.filters ++
          [{ mkSimpleTcpFilter name remotePort action with filterId := v.nextFilterId }],
        nextFilterId := v.nextFilterId + 1 } } := by
  unfold addSimpleTcpFilterV4Inner at hr
  cases hu : u16cstringFromStr name with
  | none => rw [hu] at hr; exact absurd (congrArg Prod.fst hr) (by simp)
  | some w =>
    have hw : w = name := u16cstringFromStr_some hu
    subst hw
    rw [hu] at hr
    dsimp only at hr
    by_cases hst : (fwpmFilterAdd s (mkSimpleTcpFilter w remotePort action)).1 ≠ 0
    · rw [if_pos hst] at hr
      exact absurd (congrArg Prod.fst hr) (by simp)
    · have hst0 : (fwpmFilterAdd s (mkSimpleTcpFilter w remotePort action)).1 = 0 := by
        by_contra hc
        exact hst hc
      have hshape := fwpmFilterAdd_ok_shape hst0
      rw [if_neg hst] at hr
      rw [hshape] at hr
      rw [currentView_of_some h, setView_of_some h] at hr
      have h1 := congrArg Prod.fst hr
      have h2 := congrArg Prod.snd hr
      simp only [] at h1 h2
      exact ⟨(Except.ok.inj h1).symm, h2.symm⟩

theorem importLoop_error (configs : List FilterConfig) :
    ∀ (s : EngineState) (v : EngineView), s.txn = some v →
    ∀ (e : WfpError) (s' : EngineState),
      importLoop s configs = (Except.error e, s') →
      s'.committed = s.committed ∧ s'.txn = none ∧
        s'.trace = s.trace ++ [TxEvent.txAbort] := by
  induction configs with
  | nil =>
    intro s v h e s' hr
    rw [show importLoop s [] = finishTransactionS s (Except.ok ()) from rfl,
      finishTransactionS_ok_of_some h] at hr
    exact absurd (congrArg Prod.fst hr) (by simp)
  | cons cfg rest ih =>
    intro s v h e s' hr
    rw [show importLoop s (cfg :: rest) =
        (if cfg.remote_port = 0 then (Except.error WfpError.portZero, abortTransaction s)
         else
           match addSimpleTcpFilterV4Inner s cfg.name cfg.remote_port cfg.action with
           | (Except.error e, s1) => (Except.error e, abortTransaction s1)
           | (Except.ok _, s1) => importLoop s1 rest) from rfl] at hr
    by_cases hz : cfg.remote_port = 0
    · rw [if_pos hz] at hr
      have hs := congrArg Prod.snd hr
      dsimp only at hs
      rw [abortTransaction_of_some h] at hs
      subst hs
      exact ⟨rfl, rfl, rfl⟩
    · rw [if_neg hz] at hr
      rcases hres : addSimpleTcpFilterV4Inner s cfg.name cfg.remote_port cfg.action
        with ⟨r1, s1⟩
      rw [hres] at hr
      obtain ⟨hc1, ht1, htr1⟩ : s1.committed = s.committed ∧ s1.txn.isSome = true ∧
          s1.trace = s.trace := by
        have h0 := addInner_committed_of_some h cfg.name cfg.remote_port cfg.action
        rw [hres] at h0
        exact h0
      cases r1 with
      | error e1 =>
        dsimp only at hr
        have hs := congrArg Prod.snd hr
        dsimp only at hs
        rw [abortTransaction_of_isSome ht1] at hs
        subst hs
        exact ⟨hc1, rfl, by simp [htr1]⟩
      | ok k =>
        dsimp only at hr
        obtain ⟨hk, hs1⟩ := addInner_ok_shape h hres
        have ht : s1.txn = some { v with
            filters := v.filters ++
              [{ mkSimpleTcpFilter cfg.name cfg.remote_port cfg.action with
                  filterId := v.nextFilterId }],
            nextFilterId := v.nextFilterId + 1 } := by rw [hs1]
        obtain ⟨hc, ht', htr⟩ := ih s1 _ ht e s' hr
        refine ⟨?_, ht', ?_⟩
        · rw [hc, hs1]
        · rw [htr, hs1]

theorem importLoop_ok (configs : List FilterConfig) :
    ∀ (s : EngineState) (v : EngineView), s.txn = some v →
    ∀ (u : Unit) (s' : EngineState),
      importLoop s configs = (Except.ok u, s') →
      s' = { committed :=
              { v with
                filters := v.filters ++ importedFilters v.nextFilterId configs,
                nextFilterId := v.nextFilterId + configs.length },
             txn := none, trace := s.trace ++ [TxEvent.txCommit] } := by
  induction configs with
  | nil =>
    intro s v h u s' hr
    rw [show importLoop s [] = finishTransactionS s (Except.ok ()) from rfl,
      finishTransactionS_ok_of_some h] at hr
    have hs := congrArg Prod.snd hr
    dsimp only at hs
    rw [← hs]
    simp [importedFilters]
  | cons cfg rest ih =>
    intro s v h u s' hr
    rw [show importLoop s (cfg :: rest) =
        (if cfg.remote_port = 0 then (Except.error WfpError.portZero, abortTransaction s)
         else
           match addSimpleTcpFilterV4Inner s cfg.name cfg.remote_port cfg.action with
           | (Except.error e, s1) => (Except.error e, abortTransaction s1)
           | (Except.ok _, s1) => importLoop s1 rest) from rfl] at hr
    by_cases hz : cfg.remote_port = 0
    · rw [if_pos hz] at hr
      exact absurd (congrArg Prod.fst hr) (by simp)
    · rw [if_neg hz] at hr
      rcases hres : addSimpleTcpFilterV4Inner s cfg.name cfg.remote_port cfg.action
        with ⟨r1, s1⟩
      rw [hres] at hr
      cases r1 with
      | error e1 =>
        dsimp only at hr
        exact absurd (congrArg Prod.fst hr) (by simp)
      | ok k =>
        dsimp only at hr
        obtain ⟨hk, hs1⟩ := addInner_ok_shape h hres
        have ht : s1.txn = some { v with
            filters := v.filters ++
              [{ mkSimpleTcpFilter cfg.name cfg.remote_port cfg.action with
                  filterId := v.nextFilterId }],
            nextFilterId := v.nextFilterId + 1 } := by rw [hs1]
        have hfin := ih s1 _ ht u s' hr
        rw [hfin, hs1]
        simp only [importedFilters, List.append_assoc, List.singleton_append,
          List.length_cons]
        have harith : v.nextFilterId + 1 + rest.length = v.nextFilterId + (rest.length + 1) := by
          omega
        rw [harith]

/-- C2: import_filters applies all of its configs inside one single shared
transaction: when it fails (on any config) the whole batch is aborted and the
committed rule store contains none of the configs, and on success all configs
are committed together; the trace records exactly one begin followed by one
abort or one commit. -/
theorem importFilters_atomic (s : EngineState) (configs : List FilterConfig)
    (h : s.txn = none) :
    (∀ e s', importFilters s configs = (Except.error e, s') →
        s'.committed.filters = s.committed.filters ∧ s'.txn = none ∧
        s'.trace = s.trace ++ [TxEvent.txBegin, TxEvent.txAbort]) ∧
    (∀ u s', importFilters s configs = (Except.ok u, s') →
        s'.committed.filters =
          s.committed.filters ++ importedFilters s.committed.nextFilterId configs ∧
        s'.txn = none ∧
        s'.trace = s.trace ++ [TxEvent.txBegin, TxEvent.txCommit]) := by
  have hb := beginTransaction_of_none (afterEnsure_txn_of_none h)
  have himp : importFilters s configs =
      importLoop
        { afterEnsure s with
          txn := some (afterEnsure s).committed,
          trace := (afterEnsure s).trace ++ [TxEvent.txBegin] } configs := by
    simp only [importFilters, ensureProviderSetup_eq, hb]
  constructor
  · intro e s' hr
    rw [himp] at hr
    obtain ⟨hc, ht, htr⟩ :=
      importLoop_error configs _ (afterEnsure s).committed rfl e s' hr
    refine ⟨?_, ht, ?_⟩
    · rw [hc]
      exact afterEnsure_committed_filters h
    · rw [htr]
      simp [afterEnsure_trace s]
  · intro u s' hr
    rw [himp] at hr
    have hfin := importLoop_ok configs _ (afterEnsure s).committed rfl u s' hr
    rw [hfin]
    refine ⟨?_, rfl, ?_⟩
    · simp only []
      rw [afterEnsure_committed_filters h, afterEnsure_committed_nextId h]
    · simp [afterEnsure_trace s]

/-- Witness for C2 at a concrete engine and batch. -/
theorem importFilters_atomic_witness :
    emptyEngine.txn = none ∧
    ((∀ e s', importFilters emptyEngine
        [{ name := "a", remote_port := 80, action := WfpAction.Block },
         { name := "b", remote_port := 0, action := WfpAction.Permit }] =
          (Except.error e, s') →
        s'.committed.filters = emptyEngine.committed.filters ∧ s'.txn = none ∧
        s'.trace = emptyEngine.trace ++ [TxEvent.txBegin, TxEvent.txAbort]) ∧
     (∀ u s', importFilters emptyEngine
        [{ name := "a", remote_port := 80, action := WfpAction.Block },
         { name := "b", remote_port := 0, action := WfpAction.Permit }] =
          (Except.ok u, s') →
        s'.committed.filters = emptyEngine.committed.filters ++
          importedFilters emptyEngine.committed.nextFilterId
            [{ name := "a", remote_port := 80, action := WfpAction.Block },
             { name := "b", remote_port := 0, action := WfpAction.Permit }] ∧
        s'.txn = none ∧
        s'.trace = emptyEngine.trace ++ [TxEvent.txBegin, TxEvent.txCommit])) :=
  ⟨rfl, importFilters_atomic emptyEngine _ rfl⟩

/-- C4: finish_transaction commits and returns the value when the wrapped
result is Ok (an error status from the commit becomes a commit failure), and
on Err it aborts and returns the original error unchanged; the abort status
is discarded, so an abort failure never replaces the original error.  The
state version publishes the transaction view on Ok and discards it on Err. -/
theorem finishTransaction_spec {α : Type} (commitStatus a1 a2 : Nat)
    (r : Except WfpError α) (s : EngineState) (w : EngineView) :
    (∀ e, r = Except.error e →
        finishTransaction commitStatus a1 r = Except.error e) ∧
    (∀ v, r = Except.ok v → commitStatus = 0 →
        finishTransaction commitStatus a1 r = Except.ok v) ∧
    (∀ v, r = Except.ok v → commitStatus ≠ 0 →
        finishTransaction commitStatus a1 r =
          Except.error (WfpError.commitFailed commitStatus)) ∧
    finishTransaction commitStatus a1 r = finishTransaction commitStatus a2 r ∧
    (∀ v, r = Except.ok v → s.txn = some w →
        finishTransactionS s r =
          (Except.ok v,
            { committed := w, txn := none,
              trace := s.trace ++ [TxEvent.txCommit] })) ∧
    (∀ e, r = Except.error e → s.txn = some w →
        finishTransactionS s r =
          (Except.error e,
            { s with
              txn := none,
              trace := s.trace ++ [TxEvent.txAbort] })) := by
  refine ⟨?_, ?_, ?_, ?_, ?_, ?_⟩
  · intro e he
    subst he
    rfl
  · intro v hv hc
    subst hv
    simp [finishTransaction, hc]
  · intro v hv hc
    subst hv
    simp [finishTransaction, hc]
  · cases r <;> rfl
  · intro v hv ht
    subst hv
    exact finishTransactionS_ok_of_some ht v
  · intro e he ht
    subst he
    rw [finishTransactionS_error, abortTransaction_of_some ht]

/-- Witness for C4: the abort status 7 is discarded and the original error
survives. -/
theorem finishTransaction_spec_witness :
    ((Except.error WfpError.portZero : Except WfpError Nat) =
        Except.error WfpError.portZero) ∧
    finishTransaction 0 7 (Except.error WfpError.portZero : Except WfpError Nat) =
      Except.error WfpError.portZero :=
  ⟨rfl, (finishTransaction_spec 0 7 9 _ emptyEngine emptyView).1 WfpError.portZero rfl⟩

theorem fwpmProviderAdd_already (s : EngineState) :
    fwpmProviderAdd (afterEnsure s) { key := PROVIDER_KEY, name := PROVIDER_NAME } =
      (FWP_E_ALREADY_EXISTS, afterEnsure s) := by
  have hreg := afterEnsure_provRegistered s
  simp [fwpmProviderAdd, hreg]

theorem fwpmSubLayerAdd_already (s : EngineState) :
    fwpmSubLayerAdd (afterEnsure s)
      { key := SUBLAYER_KEY, name := SUBLAYER_NAME, providerKey := PROVIDER_KEY,
        weight := 0x7FFF } = (FWP_E_ALREADY_EXISTS, afterEnsure s) := by
  have hreg := afterEnsure_sublRegistered s
  simp [fwpmSubLayerAdd, hreg]

theorem afterEnsure_idem (s : EngineState) :
    afterEnsure (afterEnsure s) = afterEnsure s := by
  calc afterEnsure (afterEnsure s)
      = (fwpmSubLayerAdd (fwpmProviderAdd (afterEnsure s)
          { key := PROVIDER_KEY, name := PROVIDER_NAME }).2
          { key := SUBLAYER_KEY, name := SUBLAYER_NAME,
            providerKey := PROVIDER_KEY, weight := 0x7FFF }).2 := rfl
    _ = (fwpmSubLayerAdd (afterEnsure s)
          { key := SUBLAYER_KEY, name := SUBLAYER_NAME,
            providerKey := PROVIDER_KEY, weight := 0x7FFF }).2 := by
        rw [fwpmProviderAdd_already]
    _ = afterEnsure s := by rw [fwpmSubLayerAdd_already]

/-- C7: identity registration is idempotent: open succeeds, a second open on
the resulting engine succeeds without changing it, and on that second run
both the provider add and the sublayer add report the already-exists status,
which ensure_provider_setup ignores. -/
theorem open_idempotent (s : EngineState) :
    (openEngine 0 s).1 = Except.ok () ∧
    openEngine 0 (openEngine 0 s).2 = (Except.ok (), (openEngine 0 s).2) ∧
    (fwpmProviderAdd (openEngine 0 s).2
      { key := PROVIDER_KEY, name := PROVIDER_NAME }).1 = FWP_E_ALREADY_EXISTS ∧
    (fwpmSubLayerAdd (openEngine 0 s).2
      { key := SUBLAYER_KEY, name := SUBLAYER_NAME, providerKey := PROVIDER_KEY,
        weight := 0x7FFF }).1 = FWP_E_ALREADY_EXISTS := by
  have hopen : openEngine 0 s = (Except.ok (), afterEnsure s) := by
    simp [openEngine, ensureProviderSetup_eq]
  refine ⟨by rw [hopen], ?_, ?_, ?_⟩
  · rw [hopen]
    simp only []
    simp [openEngine, ensureProviderSetup_eq, afterEnsure_idem]
  · rw [hopen]
    simp only []
    rw [fwpmProviderAdd_already]
  · rw [hopen]
    simp only []
    rw [fwpmSubLayerAdd_already]

theorem getById_of_find {s : EngineState} {f : FwpmFilter} {id : Nat}
    (hfind : (currentView s).filters.find? (fun g => g.filterId = id) = some f) :
    fwpmFilterGetById s id = (0, some f) := by
  unfold fwpmFilterGetById
  rw [hfind]

theorem getById_of_find_none {s : EngineState} {id : Nat}
    (hfind : (currentView s).filters.find? (fun g => g.filterId = id) = none) :
    fwpmFilterGetById s id = (FWP_E_FILTER_NOT_FOUND, none) := by
  unfold fwpmFilterGetById
  rw [hfind]

theorem update_notOwned_shape {s : EngineState} {f : FwpmFilter} {id : Nat}
    (h : s.txn = none)
    (hfind : s.committed.filters.find? (fun g => g.filterId = id) = some f)
    (hnot : isOwnedFilter f = false)
    (name : String) (remotePort : Nat) (action : WfpAction) :
    updateSimpleTcpFilterV4 s id name remotePort action =
      (Except.error (WfpError.notOwned id),
        { afterEnsure s with
          txn := none,
          trace := (afterEnsure s).trace ++ [TxEvent.txBegin, TxEvent.txAbort] }) := by
  have hb := beginTransaction_of_none (afterEnsure_txn_of_none h)
  have hget : fwpmFilterGetById
      { afterEnsure s with
        txn := some (afterEnsure s).committed,
        trace := (afterEnsure s).trace ++ [TxEvent.txBegin] } id = (0, some f) := by
    apply getById_of_find
    show ((afterEnsure s).committed.filters.find? (fun g => g.filterId = id)) = some f
    rw [afterEnsure_committed_filters h]
    exact hfind
  simp only [updateSimpleTcpFilterV4, ensureProviderSetup_eq, hb, hget]
  have habort : abortTransaction
      { afterEnsure s with
        txn := some (afterEnsure s).committed,
        trace := (afterEnsure s).trace ++ [TxEvent.txBegin] } =
      { afterEnsure s with
        txn := none,
        trace := ((afterEnsure s).trace ++ [TxEvent.txBegin]) ++ [TxEvent.txAbort] } := by
    exact abortTransaction_of_some rfl
  simp [hnot, habort]

theorem delete_notOwned_shape {s : EngineState} {f : FwpmFilter} {id : Nat}
    (h : s.txn = none)
    (hfind : s.committed.filters.find? (fun g => g.filterId = id) = some f)
    (hnot : isOwnedFilter f = false) :
    deleteFilterById s id =
      (Except.error (WfpError.notOwned id),
        { s with
          txn := none,
          trace := s.trace ++ [TxEvent.txBegin, TxEvent.txAbort] }) := by
  have hb := beginTransaction_of_none h
  have hget : fwpmFilterGetById
      { s with
        txn := some s.committed,
        trace := s.trace ++ [TxEvent.txBegin] } id = (0, some f) := by
    apply getById_of_find
    exact hfind
  simp only [deleteFilterById, hb, hget]
  have habort : abortTransaction
      { s with
        txn := some s.committed,
        trace := s.trace ++ [TxEvent.txBegin] } =
      { s with
        txn := none,
        trace := (s.trace ++ [TxEvent.txBegin]) ++ [TxEvent.txAbort] } := by
    exact abortTransaction_of_some rfl
  simp [hnot, habort]

/-- C1: for a rule that is not owned by this application (foreign sublayer
key, absent provider reference, or foreign provider key), update and delete
on its identifier fail with the not-owned error, leave the committed filter
store unchanged, and abort the transaction before any mutation. -/
theorem ownership_gate (s : EngineState) (f : FwpmFilter) (id : Nat)
    (name : String) (remotePort : Nat) (action : WfpAction)
    (htxn : s.txn = none)
    (hfind : s.committed.filters.find? (fun g => g.filterId = id) = some f)
    (hnot : isOwnedFilter f = false) :
    (f.subLayerKey ≠ SUBLAYER_KEY ∨ f.providerKey = none ∨
      (∃ k, f.providerKey = some k ∧ k ≠ PROVIDER_KEY)) ∧
    (updateSimpleTcpFilterV4 s id name remotePort action).1 =
      Except.error (WfpError.notOwned id) ∧
    (updateSimpleTcpFilterV4 s id name remotePort action).2.committed.filters =
      s.committed.filters ∧
    (updateSimpleTcpFilterV4 s id name remotePort action).2.txn = none ∧
    (updateSimpleTcpFilterV4 s id name remotePort action).2.trace =
      s.trace ++ [TxEvent.txBegin, TxEvent.txAbort] ∧
    deleteFilterById s id =
      (Except.error (WfpError.notOwned id),
        { s with
          txn := none,
          trace := s.trace ++ [TxEvent.txBegin, TxEvent.txAbort] }) := by
  have hchar : f.subLayerKey ≠ SUBLAYER_KEY ∨ f.providerKey = none ∨
      (∃ k, f.providerKey = some k ∧ k ≠ PROVIDER_KEY) := by
    by_cases hs : f.subLayerKey = SUBLAYER_KEY
    · cases hp : f.providerKey with
      | none => exact Or.inr (Or.inl rfl)
      | some k =>
        refine Or.inr (Or.inr ⟨k, rfl, ?_⟩)
        intro hk
        rw [isOwnedFilter, hp] at hnot
        simp [hs, hk] at hnot
    · exact Or.inl hs
  have hupd := update_notOwned_shape htxn hfind hnot name remotePort action
  have hdel := delete_notOwned_shape htxn hfind hnot
  refine ⟨hchar, ?_, ?_, ?_, ?_, hdel⟩
  · rw [hupd]
  · rw [hupd]
    exact afterEnsure_committed_filters htxn
  · rw [hupd]
  · rw [hupd]
    simp [afterEnsure_trace s]

/-- Witness for C1: the alien rule (foreign sublayer, no provider) is
rejected by both update and delete, with nothing deleted. -/
theorem ownership_gate_witness :
    alienEngine.txn = none ∧
    alienEngine.committed.filters.find? (fun g => g.filterId = 7) = some alienFilter ∧
    isOwnedFilter alienFilter = false ∧
    (updateSimpleTcpFilterV4 alienEngine 7 "n" 80 WfpAction.Permit).1 =
      Except.error (WfpError.notOwned 7) ∧
    deleteFilterById alienEngine 7 =
      (Except.error (WfpError.notOwned 7),
        { alienEngine with
          txn := none,
          trace := alienEngine.trace ++ [TxEvent.txBegin, TxEvent.txAbort] }) :=
  ⟨rfl, by decide, by decide,
    (ownership_gate alienEngine alienFilter 7 "n" 80 WfpAction.Permit rfl
      (by decide) (by decide)).2.1,
    (ownership_gate alienEngine alienFilter 7 "n" 80 WfpAction.Permit rfl
      (by decide) (by decide)).2.2.2.2.2⟩

theorem fwpmFilterUpdate_found {s : EngineState} {id : Nat} (f2 : FwpmFilter)
    (hany : ((currentView s).filters.any (fun g => g.filterId = id)) = true) :
    fwpmFilterUpdate s id f2 =
      (0, setView s
        { currentView s with
          filters := (currentView s).filters.map (fun g =>
            if g.filterId = id then { f2 with filterId := id } else g) }) := by
  simp [fwpmFilterUpdate, hany]

/-- C6: a successful update of an owned rule submits an updated rule that
keeps the original layer key, sublayer key, weight and flags, rebuilds the
display name, conditions and action from the new arguments, and explicitly
re-associates the tool provider key; the stored rule with that identifier is
replaced by exactly that updated rule. -/
theorem update_rebuild_preserves (s : EngineState) (f : FwpmFilter) (id : Nat)
    (name : String) (remotePort : Nat) (action : WfpAction)
    (htxn : s.txn = none)
    (hfind : s.committed.filters.find? (fun g => g.filterId = id) = some f)
    (howned : isOwnedFilter f = true)
    (hname : u16cstringFromStr name = some name) :
    (updateSimpleTcpFilterV4 s id name remotePort action).1 = Except.ok () ∧
    (updateSimpleTcpFilterV4 s id name remotePort action).2.txn = none ∧
    (updateSimpleTcpFilterV4 s id name remotePort action).2.committed.filters =
      s.committed.filters.map (fun g =>
        if g.filterId = id then
          { updatedFilterOf f name remotePort action with filterId := id }
        else g) ∧
    (updatedFilterOf f name remotePort action).layerKey = f.layerKey ∧
    (updatedFilterOf f name remotePort action).subLayerKey = f.subLayerKey ∧
    (updatedFilterOf f name remotePort action).weight = f.weight ∧
    (updatedFilterOf f name remotePort action).flags = f.flags ∧
    (updatedFilterOf f name remotePort action).conditions =
      [protoCond, portCond remotePort] ∧
    (updatedFilterOf f name remotePort action).actionType = action.toFwpm ∧
    (updatedFilterOf f name remotePort action).displayName = some name ∧
    (updatedFilterOf f name remotePort action).providerKey = some PROVIDER_KEY ∧
    (updateSimpleTcpFilterV4 s id name remotePort action).2.trace =
      s.trace ++ [TxEvent.txBegin, TxEvent.txCommit] := by
  have hb := beginTransaction_of_none (afterEnsure_txn_of_none htxn)
  have hget : fwpmFilterGetById
      { afterEnsure s with
        txn := some (afterEnsure s).committed,
        trace := (afterEnsure s).trace ++ [TxEvent.txBegin] } id = (0, some f) := by
    apply getById_of_find
    show ((afterEnsure s).committed.filters.find? (fun g => g.filterId = id)) = some f
    rw [afterEnsure_committed_filters htxn]
    exact hfind
  have hany : (((afterEnsure s).committed.filters).any
      (fun g => g.filterId = id)) = true := by
    rw [afterEnsure_committed_filters htxn]
    have hmem := List.mem_of_find?_eq_some hfind
    have hpred : f.filterId = id := by
      have hp := List.find?_some hfind
      simpa using hp
    refine List.any_eq_true.mpr ⟨f, hmem, ?_⟩
    simpa using hpred
  have hupdate := @fwpmFilterUpdate_found
    { afterEnsure s with
      txn := some (afterEnsure s).committed,
      trace := (afterEnsure s).trace ++ [TxEvent.txBegin] }
    id (updatedFilterOf f name remotePort action) hany
  have hshape : updateSimpleTcpFilterV4 s id name remotePort action =
      (Except.ok (),
        { committed :=
            { (afterEnsure s).committed with
              filters := (afterEnsure s).committed.filters.map (fun g =>
                if g.filterId = id then
                  { updatedFilterOf f name remotePort action with filterId := id }
                else g) },
          txn := none,
          trace := ((afterEnsure s).trace ++ [TxEvent.txBegin]) ++ [TxEvent.txCommit] }) := by
    simp only [updateSimpleTcpFilterV4, ensureProviderSetup_eq, hb, hget, hname]
    simp only [howned, hupdate]
    rw [setView_of_some rfl]
    rw [finishTransactionS_ok_of_some rfl]
    simp [currentView]
  refine ⟨by rw [hshape], by rw [hshape], ?_, rfl, rfl, rfl, rfl, rfl, rfl, rfl, rfl, ?_⟩
  · rw [hshape]
    show ((afterEnsure s).committed.filters.map _) = _
    rw [afterEnsure_committed_filters htxn]
  · rw [hshape]
    simp [afterEnsure_trace s]

/-- Witness for C6: updating the concrete owned rule succeeds and keeps the
ownership tag. -/
theorem update_rebuild_preserves_witness :
    ownedEngine.txn = none ∧
    ownedEngine.committed.filters.find? (fun g => g.filterId = 4) = some ownedFilter ∧
    isOwnedFilter ownedFilter = true ∧
    u16cstringFromStr "renamed" = some "renamed" ∧
    (updateSimpleTcpFilterV4 ownedEngine 4 "renamed" 8080 WfpAction.Permit).1 =
      Except.ok () ∧
    (updatedFilterOf ownedFilter "renamed" 8080 WfpAction.Permit).providerKey =
      some PROVIDER_KEY :=
  ⟨rfl, by decide, by decide, by decide,
    (update_rebuild_preserves ownedEngine ownedFilter 4 "renamed" 8080
      WfpAction.Permit rfl (by decide) (by decide) (by decide)).1,
    (update_rebuild_preserves ownedEngine ownedFilter 4 "renamed" 8080
      WfpAction.Permit rfl (by decide) (by decide)
      (by decide)).2.2.2.2.2.2.2.2.2.2.1⟩

/-- Counterexample to C3: add_simple_tcp_filter_v4 performs no port
validation — with remote_port = 0 it succeeds and creates the filter instead
of failing with the port error. -/
theorem addFilter_no_port_validation :
    (addSimpleTcpFilterV4 emptyEngine "pz" 0 WfpAction.Permit).1 = Except.ok 1 ∧
    (addSimpleTcpFilterV4 emptyEngine "pz" 0 WfpAction.Permit).1 ≠
      Except.error WfpError.portZero ∧
    (addSimpleTcpFilterV4 emptyEngine "pz" 0 WfpAction.Permit).2.committed.filters =
      [{ mkSimpleTcpFilter "pz" 0 WfpAction.Permit with filterId := 1 }] := by
  refine ⟨rfl, ?_, rfl⟩
  intro h
  rw [show (addSimpleTcpFilterV4 emptyEngine "pz" 0 WfpAction.Permit).1 =
    Except.ok 1 from rfl] at h
  exact Except.noConfusion h

theorem importLoop_portZero (configs : List FilterConfig) :
    ∀ (s : EngineState) (v : EngineView), s.txn = some v →
    (v.providers.any (fun q => q.key = PROVIDER_KEY)) = true →
    (v.sublayers.any (fun q => q.key = SUBLAYER_KEY)) = true →
    (∃ cfg ∈ configs, cfg.remote_port = 0) →
    (∀ cfg ∈ configs, u16cstringFromStr cfg.name = some cfg.name) →
    (importLoop s configs).1 = Except.error WfpError.portZero := by
  induction configs with
  | nil =>
    intro s v h hp hsl hz hn
    obtain ⟨cfg, hmem, _⟩ := hz
    exact absurd hmem (List.not_mem_nil cfg)
  | cons cfg rest ih =>
    intro s v h hp hsl hz hn
    rw [show importLoop s (cfg :: rest) =
        (if cfg.remote_port = 0 then (Except.error WfpError.portZero, abortTransaction s)
         else
           match addSimpleTcpFilterV4Inner s cfg.name cfg.remote_port cfg.action with
           | (Except.error e, s1) => (Except.error e, abortTransaction s1)
           | (Except.ok _, s1) => importLoop s1 rest) from rfl]
    by_cases hzc : cfg.remote_port = 0
    · rw [if_pos hzc]
    · rw [if_neg hzc]
      have hinner := addInner_of_registered h hp hsl
        (hn cfg (List.mem_cons_self cfg rest)) cfg.remote_port cfg.action
      rw [hinner]
      have hz2 : ∃ c ∈ rest, c.remote_port = 0 := by
        obtain ⟨c, hmem, hc⟩ := hz
        rcases List.mem_cons.mp hmem with hceq | hmem2
        · exact absurd (hceq ▸ hc) hzc
        · exact ⟨c, hmem2, hc⟩
      exact ih _ _ rfl (by simpa using hp) (by simpa using hsl) hz2
        (fun c hm => hn c (List.mem_cons_of_mem cfg hm))

theorem addFilter_ok_shape (s : EngineState) (name : String) (remotePort : Nat)
    (action : WfpAction) (htxn : s.txn = none)
    (hname : u16cstringFromStr name = some name) :
    addSimpleTcpFilterV4 s name remotePort action =
      (Except.ok s.committed.nextFilterId,
        { committed :=
            { (afterEnsure s).committed with
              filters := (afterEnsure s).committed.filters ++
                [{ mkSimpleTcpFilter name remotePort action with
                    filterId := (afterEnsure s).committed.nextFilterId }],
              nextFilterId := (afterEnsure s).committed.nextFilterId + 1 },
          txn := none,
          trace := ((afterEnsure s).trace ++ [TxEvent.txBegin]) ++ [TxEvent.txCommit] }) := by
  have hb := beginTransaction_of_none (afterEnsure_txn_of_none htxn)
  have hp : ((afterEnsure s).committed.providers.any
      (fun q => q.key = PROVIDER_KEY)) = true := by
    have hreg := afterEnsure_provRegistered s
    rw [currentView_of_none (afterEnsure_txn_of_none htxn)] at hreg
    exact hreg
  have hsl : ((afterEnsure s).committed.sublayers.any
      (fun q => q.key = SUBLAYER_KEY)) = true := by
    have hreg := afterEnsure_sublRegistered s
    rw [currentView_of_none (afterEnsure_txn_of_none htxn)] at hreg
    exact hreg
  have hinner := @addInner_of_registered
    { afterEnsure s with
      txn := some (afterEnsure s).committed,
      trace := (afterEnsure s).trace ++ [TxEvent.txBegin] }
    (afterEnsure s).committed rfl hp hsl name hname remotePort action
  simp only [addSimpleTcpFilterV4, ensureProviderSetup_eq, hb, hinner]
  rw [finishTransactionS_ok_of_some rfl]
  rw [afterEnsure_committed_nextId htxn]

/-- C3 amended: only import_filters validates the remote port: a batch
containing a zero port fails with the port error and creates nothing, while
add_simple_tcp_filter_v4 with remote_port = 0 performs no validation — it
succeeds and appends the port-0 filter. -/
theorem port_validation_amended (s : EngineState) (configs : List FilterConfig)
    (name : String) (action : WfpAction)
    (htxn : s.txn = none)
    (hz : ∃ cfg ∈ configs, cfg.remote_port = 0)
    (hnames : ∀ cfg ∈ configs, u16cstringFromStr cfg.name = some cfg.name)
    (hname : u16cstringFromStr name = some name) :
    (importFilters s configs).1 = Except.error WfpError.portZero ∧
    (importFilters s configs).2.committed.filters = s.committed.filters ∧
    (importFilters s configs).2.txn = none ∧
    (addSimpleTcpFilterV4 s name 0 action).1 = Except.ok s.committed.nextFilterId ∧
    (addSimpleTcpFilterV4 s name 0 action).2.committed.filters =
      s.committed.filters ++
        [{ mkSimpleTcpFilter name 0 action with
            filterId := s.committed.nextFilterId }] := by
  have hb := beginTransaction_of_none (afterEnsure_txn_of_none htxn)
  have himp : importFilters s configs =
      importLoop
        { afterEnsure s with
          txn := some (afterEnsure s).committed,
          trace := (afterEnsure s).trace ++ [TxEvent.txBegin] } configs := by
    simp only [importFilters, ensureProviderSetup_eq, hb]
  have hp : ((afterEnsure s).committed.providers.any
      (fun q => q.key = PROVIDER_KEY)) = true := by
    have hreg := afterEnsure_provRegistered s
    rw [currentView_of_none (afterEnsure_txn_of_none htxn)] at hreg
    exact hreg
  have hsl : ((afterEnsure s).committed.sublayers.any
      (fun q => q.key = SUBLAYER_KEY)) = true := by
    have hreg := afterEnsure_sublRegistered s
    rw [currentView_of_none (afterEnsure_txn_of_none htxn)] at hreg
    exact hreg
  have herr : (importFilters s configs).1 = Except.error WfpError.portZero := by
    rw [himp]
    exact importLoop_portZero configs _ (afterEnsure s).committed rfl hp hsl hz hnames
  have hunch : (importFilters s configs).2.committed.filters = s.committed.filters ∧
      (importFilters s configs).2.txn = none := by
    rcases hres : importFilters s configs with ⟨r1, s1⟩
    have h1 : r1 = Except.error WfpError.portZero := by
      rw [hres] at herr
      exact herr
    subst h1
    have hres2 : importLoop
        { afterEnsure s with
          txn := some (afterEnsure s).committed,
          trace := (afterEnsure s).trace ++ [TxEvent.txBegin] } configs =
        (Except.error WfpError.portZero, s1) := by
      rw [← himp]
      exact hres
    obtain ⟨hc, ht, _⟩ :=
      importLoop_error configs _ (afterEnsure s).committed rfl _ s1 hres2
    refine ⟨?_, ht⟩
    rw [hc]
    exact afterEnsure_committed_filters htxn
  have hadd := addFilter_ok_shape s name 0 action htxn hname
  refine ⟨herr, hunch.1, hunch.2, by rw [hadd], ?_⟩
  · rw [hadd]
    show ((afterEnsure s).committed.filters ++ _) = _
    rw [afterEnsure_committed_filters htxn, afterEnsure_committed_nextId htxn]

/-- Witness for the amended C3 at a concrete engine, batch and add call. -/
theorem port_validation_amended_witness :
    emptyEngine.txn = none ∧
    (∃ cfg ∈ [({ name := "a", remote_port := 0, action := WfpAction.Block } :
        FilterConfig)], cfg.remote_port = 0) ∧
    (∀ cfg ∈ [({ name := "a", remote_port := 0, action := WfpAction.Block } :
        FilterConfig)], u16cstringFromStr cfg.name = some cfg.name) ∧
    u16cstringFromStr "pz2" = some "pz2" ∧
    (importFilters emptyEngine
      [{ name := "a", remote_port := 0, action := WfpAction.Block }]).1 =
      Except.error WfpError.portZero ∧
    (addSimpleTcpFilterV4 emptyEngine "pz2" 0 WfpAction.Permit).1 =
      Except.ok emptyEngine.committed.nextFilterId :=
  ⟨rfl, by decide, by decide, by decide,
    (port_validation_amended emptyEngine _ "pz2" WfpAction.Permit rfl
      (by decide) (by decide) (by decide)).1,
    (port_validation_amended emptyEngine
      [{ name := "a", remote_port := 0, action := WfpAction.Block }]
      "pz2" WfpAction.Permit rfl (by decide) (by decide) (by decide)).2.2.2.1⟩

/-- Counterexample to C5: deleting a missing identifier fails with the
get-by-id not-found error, not with the not-owned error, so the two cases
are distinguishable. -/
theorem delete_missing_counterexample :
    (deleteFilterById emptyEngine 3).1 =
      Except.error (WfpError.getByIdFailed FWP_E_FILTER_NOT_FOUND) ∧
    (deleteFilterById emptyEngine 3).1 ≠ Except.error (WfpError.notOwned 3) ∧
    (deleteFilterById emptyEngine 3).2.committed.filters = [] := by
  refine ⟨rfl, ?_, rfl⟩
  intro h
  rw [show (deleteFilterById emptyEngine 3).1 =
    Except.error (WfpError.getByIdFailed FWP_E_FILTER_NOT_FOUND) from rfl] at h
  have h2 := Except.error.inj h
  exact WfpError.noConfusion h2

/-- C5 amended: delete_filter_by_id on a missing identifier deletes nothing
and fails, but with the wrapped get-by-id not-found error (the fetch of a
missing rule fails with the not-found status per the spec contract of
getById), which is distinguishable from the not-owned error produced for an
existing rule that is not owned; only a rule reported as a null result with
success status would take the not-owned path. -/
theorem delete_missing_amended (s : EngineState) (id : Nat)
    (t : EngineState) (g : FwpmFilter) (id2 : Nat)
    (htxn : s.txn = none)
    (hmiss : s.committed.filters.find? (fun x => x.filterId = id) = none)
    (htxn2 : t.txn = none)
    (hfind2 : t.committed.filters.find? (fun x => x.filterId = id2) = some g)
    (hnot : isOwnedFilter g = false) :
    deleteFilterById s id =
      (Except.error (WfpError.getByIdFailed FWP_E_FILTER_NOT_FOUND),
        { s with
          txn := none,
          trace := s.trace ++ [TxEvent.txBegin, TxEvent.txAbort] }) ∧
    (deleteFilterById t id2).1 = Except.error (WfpError.notOwned id2) ∧
    (WfpError.getByIdFailed FWP_E_FILTER_NOT_FOUND ≠ WfpError.notOwned id2) := by
  have hb := beginTransaction_of_none htxn
  have hget : fwpmFilterGetById
      { s with
        txn := some s.committed,
        trace := s.trace ++ [TxEvent.txBegin] } id =
      (FWP_E_FILTER_NOT_FOUND, none) := by
    apply getById_of_find_none
    exact hmiss
  refine ⟨?_, ?_, by simp⟩
  · simp only [deleteFilterById, hb, hget]
    have habort : abortTransaction
        { s with
          txn := some s.committed,
          trace := s.trace ++ [TxEvent.txBegin] } =
        { s with
          txn := none,
          trace := (s.trace ++ [TxEvent.txBegin]) ++ [TxEvent.txAbort] } := by
      exact abortTransaction_of_some rfl
    simp [habort, FWP_E_FILTER_NOT_FOUND]
  · rw [delete_notOwned_shape htxn2 hfind2 hnot]

/-- Witness for the amended C5. -/
theorem delete_missing_amended_witness :
    emptyEngine.txn = none ∧
    emptyEngine.committed.filters.find? (fun x => x.filterId = 3) = none ∧
    alienEngine.txn = none ∧
    alienEngine.committed.filters.find? (fun x => x.filterId = 7) = some alienFilter ∧
    isOwnedFilter alienFilter = false ∧
    (deleteFilterById emptyEngine 3).1 =
      Except.error (WfpError.getByIdFailed FWP_E_FILTER_NOT_FOUND) ∧
    (deleteFilterById alienEngine 7).1 = Except.error (WfpError.notOwned 7) :=
  ⟨rfl, rfl, rfl, by decide, by decide,
    by rw [(delete_missing_amended emptyEngine 3 alienEngine alienFilter 7
        rfl rfl rfl (by decide) (by decide)).1],
    (delete_missing_amended emptyEngine 3 alienEngine alienFilter 7
        rfl rfl rfl (by decide) (by decide)).2.1⟩

theorem enumPagesGo_destroyed {α : Type} (statuses : Nat → Nat) :
    ∀ (n : Nat) (remaining : List α) (idx : Nat) (acc : List α),
      remaining.length ≤ n → (enumPagesGo statuses idx remaining acc).2 = true := by
  intro n
  induction n with
  | zero =>
    intro remaining idx acc hlen
    have hr : remaining = [] := List.length_eq_zero.mp (Nat.le_zero.mp hlen)
    subst hr
    rw [enumPagesGo]
    by_cases hst : statuses idx ≠ 0
    · simp [hst]
    · simp [hst]
  | succ n ih =>
    intro remaining idx acc hlen
    rw [enumPagesGo]
    by_cases hst : statuses idx ≠ 0
    · simp [hst]
    · by_cases hpage : (remaining.take 128).isEmpty
      · simp [hst, hpage]
      · have hne : remaining ≠ [] := by
          intro he
          exact hpage (by simp [he])
        have hlen2 : (remaining.drop 128).length ≤ n := by
          rw [List.length_drop]
          have : 0 < remaining.length := List.length_pos.mpr hne
          omega
        simp only [hst, hpage, if_false, dif_neg, ite_false]
        simpa using ih (remaining.drop 128) (idx + 1) (acc ++ remaining.take 128) hlen2

theorem pages_bound_succ {len : Nat} (h : 1 ≤ len) :
    (len + 127) / 128 = ((len - 128) + 127) / 128 + 1 := by
  omega

theorem enumPagesGo_ok {α : Type} (statuses : Nat → Nat) :
    ∀ (n : Nat) (remaining : List α) (idx : Nat) (acc l : List α),
      remaining.length ≤ n →
      (enumPagesGo statuses idx remaining acc).1 = Except.ok l →
      l = acc ++ remaining ∧
        ∀ j, j ≤ (remaining.length + 127) / 128 → statuses (idx + j) = 0 := by
  intro n
  induction n with
  | zero =>
    intro remaining idx acc l hlen hr
    have hrem : remaining = [] := List.length_eq_zero.mp (Nat.le_zero.mp hlen)
    subst hrem
    rw [enumPagesGo] at hr
    by_cases hst : statuses idx ≠ 0
    · simp [hst] at hr
    · simp only [hst, if_false, List.take_nil, List.isEmpty_nil, dite_true] at hr
      have hst0 : statuses idx = 0 := by
        by_contra hc
        exact hst hc
      refine ⟨by simpa using (Except.ok.inj hr).symm, ?_⟩
      intro j hj
      have hj0 : j = 0 := by simpa using hj
      subst hj0
      simpa using hst0
  | succ n ih =>
    intro remaining idx acc l hlen hr
    rw [enumPagesGo] at hr
    by_cases hst : statuses idx ≠ 0
    · simp [hst] at hr
    · have hst0 : statuses idx = 0 := by
        by_contra hc
        exact hst hc
      by_cases hpage : (remaining.take 128).isEmpty
      · simp only [hst, if_false, hpage, dite_true, ite_false] at hr
        have hrem : remaining = [] := by
          have := List.isEmpty_iff.mp hpage
          cases remaining with
          | nil => rfl
          | cons a t => simp at this
        subst hrem
        refine ⟨by simpa using (Except.ok.inj hr).symm, ?_⟩
        intro j hj
        have hj0 : j = 0 := by simpa using hj
        subst hj0
        simpa using hst0
      · have hne : remaining ≠ [] := by
          intro he
          exact hpage (by simp [he])
        have hpos : 0 < remaining.length := List.length_pos.mpr hne
        have hlen2 : (remaining.drop 128).length ≤ n := by
          rw [List.length_drop]
          omega
        simp only [hst, hpage, if_false, dif_neg, ite_false] at hr
        obtain ⟨hl, hrest⟩ := ih (remaining.drop 128) (idx + 1)
          (acc ++ remaining.take 128) l hlen2 (by simpa using hr)
        constructor
        · rw [hl, List.append_assoc, List.take_append_drop]
        · intro j hj
          cases j with
          | zero => simpa using hst0
          | succ j =>
            have hb := pages_bound_succ hpos
            rw [List.length_drop] at hrest
            have hj2 : j ≤ ((remaining.length - 128) + 127) / 128 := by omega
            have := hrest j hj2
            have harith : idx + 1 + j = idx + (j + 1) := by omega
            rw [harith] at this
            exact this

theorem enumPagesGo_all0 {α : Type} (statuses : Nat → Nat) :
    ∀ (n : Nat) (remaining : List α) (idx : Nat) (acc : List α),
      remaining.length ≤ n →
      (∀ j, j ≤ (remaining.length + 127) / 128 → statuses (idx + j) = 0) →
      (enumPagesGo statuses idx remaining acc).1 = Except.ok (acc ++ remaining) := by
  intro n
  induction n with
  | zero =>
    intro remaining idx acc hlen hall
    have hrem : remaining = [] := List.length_eq_zero.mp (Nat.le_zero.mp hlen)
    subst hrem
    have hst0 : statuses idx = 0 := by simpa using hall 0 (by simp)
    rw [enumPagesGo]
    simp [hst0]
  | succ n ih =>
    intro remaining idx acc hlen hall
    have hst0 : statuses idx = 0 := by simpa using hall 0 (by simp)
    rw [enumPagesGo]
    by_cases hpage : (remaining.take 128).isEmpty
    · have hrem : remaining = [] := by
        have := List.isEmpty_iff.mp hpage
        cases remaining with
        | nil => rfl
        | cons a t => simp at this
      subst hrem
      simp [hst0]
    · have hne : remaining ≠ [] := by
        intro he
        exact hpage (by simp [he])
      have hpos : 0 < remaining.length := List.length_pos.mpr hne
      have hlen2 : (remaining.drop 128).length ≤ n := by
        rw [List.length_drop]
        omega
      have hall2 : ∀ j, j ≤ ((remaining.drop 128).length + 127) / 128 →
          statuses (idx + 1 + j) = 0 := by
        intro j hj
        rw [List.length_drop] at hj
        have hb := pages_bound_succ hpos
        have hj2 : j + 1 ≤ (remaining.length + 127) / 128 := by omega
        have := hall (j + 1) hj2
        have harith : idx + (j + 1) = idx + 1 + j := by omega
        rw [harith] at this
        exact this
      have hrec := ih (remaining.drop 128) (idx + 1) (acc ++ remaining.take 128)
        hlen2 hall2
      simp only [hst0, if_neg, hpage, dif_neg, ite_false]
      simp only [ne_eq, not_true_eq_false, if_false, dite_eq_ite,
        Bool.false_eq_true]
      rw [hrec, List.append_assoc, List.take_append_drop]

theorem enumPagesGo_error_nonzero {α : Type} (statuses : Nat → Nat) :
    ∀ (n : Nat) (remaining : List α) (idx : Nat) (acc : List α) (st : Nat),
      remaining.length ≤ n →
      (enumPagesGo statuses idx remaining acc).1 = Except.error st →
      st ≠ 0 := by
  intro n
  induction n with
  | zero =>
    intro remaining idx acc st hlen hr
    have hrem : remaining = [] := List.length_eq_zero.mp (Nat.le_zero.mp hlen)
    subst hrem
    rw [enumPagesGo] at hr
    by_cases hst : statuses idx ≠ 0
    · rw [if_pos hst] at hr
      have := Except.error.inj hr
      rw [← this]
      exact hst
    · simp [hst] at hr
  | succ n ih =>
    intro remaining idx acc st hlen hr
    rw [enumPagesGo] at hr
    by_cases hst : statuses idx ≠ 0
    · rw [if_pos hst] at hr
      have := Except.error.inj hr
      rw [← this]
      exact hst
    · by_cases hpage : (remaining.take 128).isEmpty
      · simp [hst, hpage] at hr
      · have hne : remaining ≠ [] := by
          intro he
          exact hpage (by simp [he])
        have hpos : 0 < remaining.length := List.length_pos.mpr hne
        have hlen2 : (remaining.drop 128).length ≤ n := by
          rw [List.length_drop]
          omega
        simp only [hst, hpage, if_false, dif_neg, ite_false] at hr
        exact ih (remaining.drop 128) (idx + 1) (acc ++ remaining.take 128) st hlen2
          (by simpa using hr)

/-- C8: catalog enumeration pages through the store in pages of at most 128
entries until an empty page: when it succeeds it returns every entry of the
store exactly once (the result is exactly the stored catalog, in order,
regardless of how the count aligns with the page size), and whenever it
returns a result every page status consulted was zero; any failing page
status yields an enumeration error (never a truncated result), carrying the
nonzero status, and the enumeration handle is destroyed on every path.  The
same paging loop backs list_filters and enumerate_layers. -/
theorem enumeration_paged_complete (s : EngineState) (layerCatalog : List LayerRec)
    (lm sm pm : List (Guid × String)) (statuses : Nat → Nat)
    (hne : (currentView s).filters ≠ []) :
    (enumPages statuses (currentView s).filters).2 = true ∧
    (∀ l, (enumPages statuses (currentView s).filters).1 = Except.ok l →
        l = (currentView s).filters ∧
        ∀ j, j ≤ ((currentView s).filters.length + 127) / 128 → statuses j = 0) ∧
    (∀ st, (enumPages statuses (currentView s).filters).1 = Except.error st →
        st ≠ 0 ∧
        listFilters s lm sm pm 0 statuses = Except.error (WfpError.enumFailed st)) ∧
    ((∀ j, j ≤ ((currentView s).filters.length + 127) / 128 → statuses j = 0) →
        listFilters s lm sm pm 0 statuses =
          Except.ok ((currentView s).filters.map (summaryOfFilter lm sm pm))) ∧
    ((∀ j, j ≤ (layerCatalog.length + 127) / 128 → statuses j = 0) →
        enumerateLayers layerCatalog 0 statuses =
          Except.ok (layerCatalog.map (fun l =>
            { key := l.layerKey, name := displayNameOf l.displayData,
              description := displayDescriptionOf l.displayData }))) := by
  refine ⟨?_, ?_, ?_, ?_, ?_⟩
  · exact enumPagesGo_destroyed statuses _ _ 0 [] (Nat.le_refl _)
  · intro l hl
    obtain ⟨h1, h2⟩ := enumPagesGo_ok statuses _ _ 0 [] l (Nat.le_refl _) hl
    refine ⟨by simpa using h1, ?_⟩
    intro j hj
    simpa using h2 j hj
  · intro st hst
    have hnz := enumPagesGo_error_nonzero statuses _ _ 0 [] st (Nat.le_refl _) hst
    refine ⟨hnz, ?_⟩
    simp only [listFilters]
    rw [hst]
    simp
  · intro hall
    have hok : (enumPages statuses (currentView s).filters).1 =
        Except.ok ([] ++ (currentView s).filters) := by
      apply enumPagesGo_all0 statuses _ _ 0 [] (Nat.le_refl _)
      intro j hj
      simpa using hall j hj
    simp only [listFilters]
    rw [hok]
    simp
  · intro hall
    have hok : (enumPages statuses layerCatalog).1 =
        Except.ok ([] ++ layerCatalog) := by
      apply enumPagesGo_all0 statuses _ _ 0 [] (Nat.le_refl _)
      intro j hj
      simpa using hall j hj
    simp only [enumerateLayers]
    rw [hok]
    simp

/-- Witness for C8 at a concrete one-entry catalog with all page statuses
zero. -/
theorem enumeration_paged_complete_witness :
    (currentView ownedEngine).filters ≠ [] ∧
    (enumPages (fun _ => 0) (currentView ownedEngine).filters).2 = true ∧
    listFilters ownedEngine [] [] [] 0 (fun _ => 0) =
      Except.ok ((currentView ownedEngine).filters.map (summaryOfFilter [] [] [])) :=
  ⟨by decide,
    (enumeration_paged_complete ownedEngine [] [] [] [] (fun _ => 0) (by decide)).1,
    (enumeration_paged_complete ownedEngine [] [] [] [] (fun _ => 0)
      (by decide)).2.2.2.1 (fun j hj => rfl)⟩

/-- Counterexample to C9: an unresolved provider reference does not fall back
to a raw textual form of the identifier — both unresolved providers display
as the fixed placeholder, so two filters with distinct unresolved provider
keys are indistinguishable in the provider column (the snapshot still
succeeds and shows every filter). -/
theorem provider_fallback_counterexample :
    listFilters unresolvedEngine [] [] [] 0 (fun _ => 0) =
      Except.ok [summaryOfFilter [] [] [] filterPX,
        summaryOfFilter [] [] [] filterPY] ∧
    (summaryOfFilter [] [] [] filterPX).provider = "<unknown provider>" ∧
    (summaryOfFilter [] [] [] filterPY).provider = "<unknown provider>" ∧
    filterPX.providerKey ≠ filterPY.providerKey ∧
    (summaryOfFilter [] [] [] filterPX).provider =
      (summaryOfFilter [] [] [] filterPY).provider ∧
    (summaryOfFilter [] [] [] filterPX).provider ≠ guidText gX := by
  have hok : (enumPages (fun _ => 0)
      (currentView unresolvedEngine).filters).1 =
      Except.ok ([] ++ (currentView unresolvedEngine).filters) :=
    enumPagesGo_all0 (fun _ => 0) 2 _ 0 [] (by decide) (fun j hj => rfl)
  refine ⟨?_, by decide, by decide, by decide, by decide, by decide⟩
  simp only [listFilters]
  rw [hok]
  simp
  rfl

/-- C9 amended: snapshot assembly never fails because of unresolved
references and every filter still appears; an unresolved layer or sublayer
key falls back to the raw textual form of that identifier, while an
unresolved or absent provider reference falls back to the fixed placeholder
string, which is not derived from the identifier. -/
theorem resolve_fallback_amended (lm sm pm : List (Guid × String))
    (f : FwpmFilter) (s : EngineState) (statuses : Nat → Nat)
    (hlayer : lookupGuid lm f.layerKey = none)
    (hsub : lookupGuid sm f.subLayerKey = none)
    (hall : ∀ j, j ≤ ((currentView s).filters.length + 127) / 128 →
      statuses j = 0) :
    (summaryOfFilter lm sm pm f).layer = guidText f.layerKey ∧
    (summaryOfFilter lm sm pm f).sublayer = guidText f.subLayerKey ∧
    (∀ k, f.providerKey = some k → lookupGuid pm k = none →
        (summaryOfFilter lm sm pm f).provider = "<unknown provider>") ∧
    (f.providerKey = none →
        (summaryOfFilter lm sm pm f).provider = "<unknown provider>") ∧
    listFilters s lm sm pm 0 statuses =
      Except.ok ((currentView s).filters.map (summaryOfFilter lm sm pm)) ∧
    ((currentView s).filters.map (summaryOfFilter lm sm pm)).length =
      (currentView s).filters.length := by
  refine ⟨?_, ?_, ?_, ?_, ?_, List.length_map _ _⟩
  · simp [summaryOfFilter, hlayer]
  · simp [summaryOfFilter, hsub]
  · intro k hk hpm
    simp [summaryOfFilter, hk, hpm]
  · intro hk
    simp [summaryOfFilter, hk]
  · have hok : (enumPages statuses (currentView s).filters).1 =
        Except.ok ([] ++ (currentView s).filters) := by
      apply enumPagesGo_all0 statuses _ _ 0 [] (Nat.le_refl _)
      intro j hj
      simpa using hall j hj
    simp only [listFilters]
    rw [hok]
    simp

/-- Witness for the amended C9: a concrete filter with an unresolved layer,
sublayer and provider still displays, with the documented fallbacks. -/
theorem resolve_fallback_amended_witness :
    lookupGuid [] filterPX.layerKey = none ∧
    lookupGuid [] filterPX.subLayerKey = none ∧
    (summaryOfFilter [] [] [] filterPX).layer = guidText filterPX.layerKey ∧
    (summaryOfFilter [] [] [] filterPX).provider = "<unknown provider>" ∧
    listFilters unresolvedEngine [] [] [] 0 (fun _ => 0) =
      Except.ok ((currentView unresolvedEngine).filters.map
        (summaryOfFilter [] [] [])) :=
  ⟨rfl, rfl,
    (resolve_fallback_amended [] [] [] filterPX unresolvedEngine (fun _ => 0)
      rfl rfl (fun j hj => rfl)).1,
    (resolve_fallback_amended [] [] [] filterPX unresolvedEngine (fun _ => 0)
      rfl rfl (fun j hj => rfl)).2.2.1 gX rfl rfl,
    (resolve_fallback_amended [] [] [] filterPX unresolvedEngine (fun _ => 0)
      rfl rfl (fun j hj => rfl)).2.2.2.2.1⟩

/-- C10: the snapshot action decode is total: the permit constant maps to
Permit, the block constant to Block, and every other action type value maps
to Callout, so building a FilterSummary never fails on an unrecognized
action; the summary action is exactly this decode of the stored action
type. -/
theorem action_decode_total (t : Nat) (lm sm pm : List (Guid × String))
    (f : FwpmFilter) :
    (t = FWP_ACTION_PERMIT → decodeAction t = WfpAction.Permit) ∧
    (t = FWP_ACTION_BLOCK → decodeAction t = WfpAction.Block) ∧
    (t ≠ FWP_ACTION_PERMIT → t ≠ FWP_ACTION_BLOCK →
      decodeAction t = WfpAction.Callout) ∧
    (summaryOfFilter lm sm pm f).action = decodeAction f.actionType := by
  refine ⟨?_, ?_, ?_, rfl⟩
  · intro h
    subst h
    decide
  · intro h
    subst h
    decide
  · intro h1 h2
    simp [decodeAction, h1, h2]

/-- Witness for C10 at the three kinds of action type values. -/
theorem action_decode_total_witness :
    FWP_ACTION_CALLOUT_TERMINATING ≠ FWP_ACTION_PERMIT ∧
    FWP_ACTION_CALLOUT_TERMINATING ≠ FWP_ACTION_BLOCK ∧
    decodeAction FWP_ACTION_PERMIT = WfpAction.Permit ∧
    decodeAction FWP_ACTION_BLOCK = WfpAction.Block ∧
    decodeAction FWP_ACTION_CALLOUT_TERMINATING = WfpAction.Callout :=
  ⟨by decide, by decide,
    (action_decode_total FWP_ACTION_PERMIT [] [] [] alienFilter).1 rfl,
    (action_decode_total FWP_ACTION_BLOCK [] [] [] alienFilter).2.1 rfl,
    (action_decode_total FWP_ACTION_CALLOUT_TERMINATING [] [] []
      alienFilter).2.2.1 (by decide) (by decide)⟩
